import Mathlib

/-!
Shallow embedding of the wallet-sdk-go client library (package `api`:
`transaction.go` and the POE operations file), covering the signed-envelope
request/response protocol shared by every operation, the sign-variant
operations, and the multipart file-upload path.

External collaborators (the HTTP transport, the JSON codec of
`encoding/json`, the signing helper `buildSignatureBody`, the key-custody
lookup `queryPrivateKey`, and the local file system) are modelled as oracle
fields of an environment record: the client code under verification only
composes their results, and every claim below is about that composition.
-/

namespace WalletSdk

/-- HTTP header collection, as an association list of key/value pairs. -/
abbrev Header := List (String × String)

/-- Result of Go's `encoding/json` unmarshalling into `interface \x7b\x7d`:
a JSON string becomes a Go `string`, a number a `float64`, a boolean a
`bool`, an array a `[]interface \x7b\x7d`, an object a
`map[string]interface \x7b\x7d`.  JSON `null` and an absent field both
leave the Go interface value `nil`, which is represented by `Option.none`
at the use site. -/
inductive GoValue : Type
  | str (s : String)
  | num (n : Int)
  | boolean (b : Bool)
  | arr (elems : List GoValue)
  | obj (fields : List (String × GoValue))

/-- Go's `reflect.TypeOf` rendered through `%v`, applied to an optional
`interface \x7b\x7d` value (`none` is the `nil` interface, printed
`<nil>`). -/
def goTypeName : Option GoValue → String
  | none => "<nil>"
  | some (GoValue.str _) => "string"
  | some (GoValue.num _) => "float64"
  | some (GoValue.boolean _) => "bool"
  | some (GoValue.arr _) => "[]interface \x7b\x7d"
  | some (GoValue.obj _) => "map[string]interface \x7b\x7d"

/-- The signature wrapper `structs.SignatureBody` attached to a request
envelope (creator, nonce, signature value). -/
structure SignatureBody where
  Creator : String
  Nonce : String
  SignatureValue : String
deriving Repr, DecidableEq

/-- The signing parameters `structs.SignatureParam` (creator, nonce,
private key material). -/
structure SignatureParam where
  Creator : String
  Nonce : String
  PrivateKey : String
deriving Repr, DecidableEq

/-- The request envelope `structs.WalletRequest`: the serialized JSON
payload carried as a string, plus the signature wrapper. -/
structure WalletRequest where
  Payload : String
  Signature : Option SignatureBody
deriving Repr, DecidableEq

/-- One item written into the multipart body of `UploadPOEFile`:
a metadata form field, a file part (field name, file name, content bytes),
or the terminating boundary written by `writer.Close()`. -/
inductive MultipartItem : Type
  | field (name value : String)
  | filePart (fieldName fileName : String) (content : List Nat)
  | closingBoundary
deriving Repr, DecidableEq

/-- The body attached to an outbound request: none (GET queries), a JSON
request envelope, or a raw multipart byte body. -/
inductive RequestBody : Type
  | empty
  | envelope (e : WalletRequest)
  | multipart (items : List MultipartItem)
deriving Repr, DecidableEq

/-- A transport request object as assembled by `w.c.NewRequest` and the
`SetHeaders` / `SetHeader` / `SetParam` / `SetBody` calls. -/
structure Request where
  method : String
  path : String
  headers : Header
  params : List (String × String)
  body : RequestBody
deriving Repr, DecidableEq

/-- Mirrors `w.c.NewRequest(method, path)`. -/
def newRequest (method path : String) : Request :=
  { method := method, path := path, headers := [], params := [], body := RequestBody.empty }

/-- Mirrors `r.SetHeaders(header)`. -/
def Request.setHeaders (r : Request) (h : Header) : Request :=
  { r with headers := h }

/-- Mirrors `r.SetHeader(key, value)`. -/
def Request.setHeader (r : Request) (k v : String) : Request :=
  { r with headers := r.headers ++ [(k, v)] }

/-- Mirrors `r.SetParam(key, value)`. -/
def Request.setParam (r : Request) (k v : String) : Request :=
  { r with params := r.params ++ [(k, v)] }

/-- Mirrors `r.SetBody(body)`. -/
def Request.setBody (r : Request) (b : RequestBody) : Request :=
  { r with body := b }

/-- A raw HTTP response: status code and body text. -/
structure HttpResponse where
  status : Nat
  body : String
deriving Repr, DecidableEq

/-- The decoded outer response envelope `rtstructs.Response`:
`err_code`, `err_message`, and the opaque `payload` field (`none` when the
field is absent or JSON `null`). -/
structure Response where
  ErrCode : Int
  ErrMessage : String
  Payload : Option GoValue

/-- The well-known success code `errors.SuccCode`. -/
def SuccCode : Int := 0

/-- Errors surfaced by the client operations, one constructor per distinct
creation site in the source. -/
inductive WalletError : Type
  | precondition (msg : String)
  | encodeErr (msg : String)
  | custody (msg : String)
  | signing (msg : String)
  | transport (msg : String)
  | decodeErr (msg : String)
  | coded (code : Int) (msg : String)
  | payloadTypeInvalid (tyName : String)
  | fileOpen (path : String)
deriving Repr, DecidableEq

/-- Observable side effects of one operation call: the requests passed to
`w.c.DoRequest`, the payload byte strings passed to `buildSignatureBody`,
and the number of `w.queryPrivateKey` custody lookups performed. -/
structure OpTrace where
  sent : List Request
  signedOver : List String
  custodyCalls : Nat
deriving Repr, DecidableEq

/-- The empty trace. -/
def OpTrace.empty : OpTrace :=
  { sent := [], signedOver := [], custodyCalls := 0 }

/-- Environment of external collaborators, out of scope per the spec and
supplied as oracles: `marshal` is `json.Marshal` on the operation's body
type `B` (deterministic for a fixed value, hence a function);
`hasCustody` is whether the custody client field `w.s` is non-nil;
`queryPrivateKey` is the key-custody lookup; `buildSignatureBody` is the
signing helper; `doRequest` is the transport send; `decodeBody` is
`restapi.DecodeBody`, JSON-decoding a response body into the outer
envelope; `unmarshalResult` is `json.Unmarshal` of the nested payload
string into the operation's result type `R`; `fs` is the local file
system, mapping a path to its content when the file exists. -/
structure Env (B R : Type) where
  marshal : B → Except String String
  hasCustody : Bool
  queryPrivateKey : Header → Option SignatureParam → Except String (Option SignatureParam)
  buildSignatureBody : Option SignatureParam → String → Except String SignatureBody
  doRequest : Request → Except String HttpResponse
  decodeBody : String → Except String Response
  unmarshalResult : String → Except String R
  fs : String → Option (List Nat)

/-- Step 1 of response decoding, `restapi.RequireOK`: propagate a
transport-layer error, and require HTTP status 200, otherwise a transport
error naming the unexpected status. -/
def requireOK (raw : Except String HttpResponse) : Except WalletError HttpResponse :=
  match raw with
  | Except.error e => Except.error (WalletError.transport e)
  | Except.ok resp =>
      if resp.status = 200 then Except.ok resp
      else Except.error (WalletError.transport ("Unexpected response code: " ++ toString resp.status))

/-- Step 2 of response decoding, `restapi.DecodeBody`: JSON-decode the
response body into the outer envelope, a decode error on malformed JSON. -/
def decodeEnvelope (decodeBody : String → Except String Response)
    (resp : HttpResponse) : Except WalletError Response :=
  match decodeBody resp.body with
  | Except.error e => Except.error (WalletError.decodeErr e)
  | Except.ok respBody => Except.ok respBody

/-- Step 3 of response decoding: `if respBody.ErrCode != errors.SuccCode`
return `rest.CodedError(respBody.ErrCode, respBody.ErrMessage)`. -/
def checkErrCode (respBody : Response) : Except WalletError Response :=
  if respBody.ErrCode ≠ SuccCode then
    Except.error (WalletError.coded respBody.ErrCode respBody.ErrMessage)
  else Except.ok respBody

/-- Step 4 of response decoding: the string type assertion
`respBody.Payload.(string)`; on failure the error names
`reflect.TypeOf(respBody.Payload)`. -/
def assertPayloadString (respBody : Response) : Except WalletError String :=
  match respBody.Payload with
  | some (GoValue.str s) => Except.ok s
  | p => Except.error (WalletError.payloadTypeInvalid (goTypeName p))

/-- Step 5 of response decoding: `json.Unmarshal([]byte(respPayload), &result)`
into the operation's result type. -/
def parsePayload {R : Type} (unmarshalResult : String → Except String R)
    (respPayload : String) : Except WalletError R :=
  match unmarshalResult respPayload with
  | Except.error e => Except.error (WalletError.decodeErr e)
  | Except.ok result => Except.ok result

/-- The response-decoding sequence shared verbatim (inlined) by every
operation in the source: the five steps in order, each short-circuiting
on failure. -/
def decodeResponse {R : Type} (decodeBody : String → Except String Response)
    (unmarshalResult : String → Except String R)
    (raw : Except String HttpResponse) : Except WalletError R :=
  (requireOK raw).bind (fun resp =>
    (decodeEnvelope decodeBody resp).bind (fun respBody =>
      (checkErrCode respBody).bind (fun rb =>
        (assertPayloadString rb).bind (fun respPayload =>
          parsePayload unmarshalResult respPayload))))

/-- `WalletClient.IssueCToken` (transaction.go): nil body guard, build
POST `/v1/transaction/tokens/issue` request, marshal body, wrap
payload+signature in the envelope, dispatch, decode. -/
def IssueCToken {B R : Type} (env : Env B R) (header : Header)
    (body : Option B) (sign : Option SignatureBody) :
    Except WalletError R × OpTrace :=
  match body with
  | none => (Except.error (WalletError.precondition "request payload invalid"), OpTrace.empty)
  | some b =>
    let r0 := (newRequest "POST" "/v1/transaction/tokens/issue").setHeaders header
    match env.marshal b with
    | Except.error e => (Except.error (WalletError.encodeErr e), OpTrace.empty)
    | Except.ok reqPayload =>
      let r := r0.setBody (RequestBody.envelope { Payload := reqPayload, Signature := sign })
      (decodeResponse env.decodeBody env.unmarshalResult (env.doRequest r),
       { sent := [r], signedOver := [], custodyCalls := 0 })

/-- `WalletClient.IssueCTokenSign` (transaction.go): nil body guard,
marshal body, build the signature with `buildSignatureBody`, then delegate
to `IssueCToken`.  The trace records the payload bytes passed to
`buildSignatureBody`. -/
def IssueCTokenSign {B R : Type} (env : Env B R) (header : Header)
    (body : Option B) (signParams : Option SignatureParam) :
    Except WalletError R × OpTrace :=
  match body with
  | none => (Except.error (WalletError.precondition "request payload invalid"), OpTrace.empty)
  | some b =>
    match env.marshal b with
    | Except.error e => (Except.error (WalletError.encodeErr e), OpTrace.empty)
    | Except.ok reqPayload =>
      match env.buildSignatureBody signParams reqPayload with
      | Except.error e =>
          (Except.error (WalletError.signing e),
           { sent := [], signedOver := [reqPayload], custodyCalls := 0 })
      | Except.ok sign =>
          let res := IssueCToken env header body (some sign)
          (res.1, { res.2 with signedOver := reqPayload :: res.2.signedOver })

/-- `WalletClient.IssueAsset` (transaction.go): identical sequence to
`IssueCToken` with POST `/v1/transaction/assets/issue`. -/
def IssueAsset {B R : Type} (env : Env B R) (header : Header)
    (body : Option B) (sign : Option SignatureBody) :
    Except WalletError R × OpTrace :=
  match body with
  | none => (Except.error (WalletError.precondition "request payload invalid"), OpTrace.empty)
  | some b =>
    let r0 := (newRequest "POST" "/v1/transaction/assets/issue").setHeaders header
    match env.marshal b with
    | Except.error e => (Except.error (WalletError.encodeErr e), OpTrace.empty)
    | Except.ok reqPayload =>
      let r := r0.setBody (RequestBody.envelope { Payload := reqPayload, Signature := sign })
      (decodeResponse env.decodeBody env.unmarshalResult (env.doRequest r),
       { sent := [r], signedOver := [], custodyCalls := 0 })

/-- `WalletClient.IssueAssetSign` (transaction.go): marshal, sign,
delegate to `IssueAsset`. -/
def IssueAssetSign {B R : Type} (env : Env B R) (header : Header)
    (body : Option B) (signParams : Option SignatureParam) :
    Except WalletError R × OpTrace :=
  match body with
  | none => (Except.error (WalletError.precondition "request payload invalid"), OpTrace.empty)
  | some b =>
    match env.marshal b with
    | Except.error e => (Except.error (WalletError.encodeErr e), OpTrace.empty)
    | Except.ok reqPayload =>
      match env.buildSignatureBody signParams reqPayload with
      | Except.error e =>
          (Except.error (WalletError.signing e),
           { sent := [], signedOver := [reqPayload], custodyCalls := 0 })
      | Except.ok sign =>
          let res := IssueAsset env header body (some sign)
          (res.1, { res.2 with signedOver := reqPayload :: res.2.signedOver })

/-- `WalletClient.TransferCToken` (transaction.go): identical sequence
with POST `/v1/transaction/tokens/transfer`. -/
def TransferCToken {B R : Type} (env : Env B R) (header : Header)
    (body : Option B) (sign : Option SignatureBody) :
    Except WalletError R × OpTrace :=
  match body with
  | none => (Except.error (WalletError.precondition "request payload invalid"), OpTrace.empty)
  | some b =>
    let r0 := (newRequest "POST" "/v1/transaction/tokens/transfer").setHeaders header
    match env.marshal b with
    | Except.error e => (Except.error (WalletError.encodeErr e), OpTrace.empty)
    | Except.ok reqPayload =>
      let r := r0.setBody (RequestBody.envelope { Payload := reqPayload, Signature := sign })
      (decodeResponse env.decodeBody env.unmarshalResult (env.doRequest r),
       { sent := [r], signedOver := [], custodyCalls := 0 })

/-- `WalletClient.TransferCTokenSign` (transaction.go): marshal, sign,
delegate to `TransferCToken`. -/
def TransferCTokenSign {B R : Type} (env : Env B R) (header : Header)
    (body : Option B) (signParams : Option SignatureParam) :
    Except WalletError R × OpTrace :=
  match body with
  | none => (Except.error (WalletError.precondition "request payload invalid"), OpTrace.empty)
  | some b =>
    match env.marshal b with
    | Except.error e => (Except.error (WalletError.encodeErr e), OpTrace.empty)
    | Except.ok reqPayload =>
      match env.buildSignatureBody signParams reqPayload with
      | Except.error e =>
          (Except.error (WalletError.signing e),
           { sent := [], signedOver := [reqPayload], custodyCalls := 0 })
      | Except.ok sign =>
          let res := TransferCToken env header body (some sign)
          (res.1, { res.2 with signedOver := reqPayload :: res.2.signedOver })

/-- `WalletClient.TransferAsset` (transaction.go): identical sequence
with POST `/v1/transaction/assets/transfer`. -/
def TransferAsset {B R : Type} (env : Env B R) (header : Header)
    (body : Option B) (sign : Option SignatureBody) :
    Except WalletError R × OpTrace :=
  match body with
  | none => (Except.error (WalletError.precondition "request payload invalid"), OpTrace.empty)
  | some b =>
    let r0 := (newRequest "POST" "/v1/transaction/assets/transfer").setHeaders header
    match env.marshal b with
    | Except.error e => (Except.error (WalletError.encodeErr e), OpTrace.empty)
    | Except.ok reqPayload =>
      let r := r0.setBody (RequestBody.envelope { Payload := reqPayload, Signature := sign })
      (decodeResponse env.decodeBody env.unmarshalResult (env.doRequest r),
       { sent := [r], signedOver := [], custodyCalls := 0 })

/-- `WalletClient.TransferAssetSign` (transaction.go): marshal, sign,
delegate to `TransferAsset`. -/
def TransferAssetSign {B R : Type} (env : Env B R) (header : Header)
    (body : Option B) (signParams : Option SignatureParam) :
    Except WalletError R × OpTrace :=
  match body with
  | none => (Except.error (WalletError.precondition "request payload invalid"), OpTrace.empty)
  | some b =>
    match env.marshal b with
    | Except.error e => (Except.error (WalletError.encodeErr e), OpTrace.empty)
    | Except.ok reqPayload =>
      match env.buildSignatureBody signParams reqPayload with
      | Except.error e =>
          (Except.error (WalletError.signing e),
           { sent := [], signedOver := [reqPayload], custodyCalls := 0 })
      | Except.ok sign =>
          let res := TransferAsset env header body (some sign)
          (res.1, { res.2 with signedOver := reqPayload :: res.2.signedOver })

/-- `WalletClient.QueryTransactionLogs` (transaction.go): empty id guard,
GET `/v1/transaction/logs` with `id` and `type` query parameters,
dispatch, decode. -/
def QueryTransactionLogs {B R : Type} (env : Env B R) (header : Header)
    (id : String) (txType : String) : Except WalletError R × OpTrace :=
  if id = "" then
    (Except.error (WalletError.precondition "request id invalid"), OpTrace.empty)
  else
    let r := (((newRequest "GET" "/v1/transaction/logs").setHeaders header).setParam
        "id" id).setParam "type" txType
    (decodeResponse env.decodeBody env.unmarshalResult (env.doRequest r),
     { sent := [r], signedOver := [], custodyCalls := 0 })

/-- The custody step of `CreatePOE` / `UpdatePOE`:
`if w.s != nil` then resolve the signature parameters through
`w.queryPrivateKey(header, signParams)`.  Returns the resolved parameters
together with the number of custody lookups performed. -/
def resolveSignParams {B R : Type} (env : Env B R) (header : Header)
    (signParams : Option SignatureParam) :
    Except String (Option SignatureParam) × Nat :=
  if env.hasCustody then (env.queryPrivateKey header signParams, 1)
  else (Except.ok signParams, 0)

/-- `WalletClient.CreatePOE` (POE operations file): nil body guard,
optional custody lookup, marshal body, `buildSignatureBody` over the
marshalled bytes, build POST `/v1/poe/create` request carrying exactly
those bytes as the envelope payload, dispatch, decode. -/
def CreatePOE {B R : Type} (env : Env B R) (header : Header)
    (body : Option B) (signParams : Option SignatureParam) :
    Except WalletError R × OpTrace :=
  match body with
  | none => (Except.error (WalletError.precondition "request payload invalid"), OpTrace.empty)
  | some b =>
    let resolved := resolveSignParams env header signParams
    match resolved.1 with
    | Except.error e =>
        (Except.error (WalletError.custody e),
         { sent := [], signedOver := [], custodyCalls := resolved.2 })
    | Except.ok signParams2 =>
      match env.marshal b with
      | Except.error e =>
          (Except.error (WalletError.encodeErr e),
           { sent := [], signedOver := [], custodyCalls := resolved.2 })
      | Except.ok reqPayload =>
        match env.buildSignatureBody signParams2 reqPayload with
        | Except.error e =>
            (Except.error (WalletError.signing e),
             { sent := [], signedOver := [reqPayload], custodyCalls := resolved.2 })
        | Except.ok sign =>
          let r := ((newRequest "POST" "/v1/poe/create").setHeaders header).setBody
              (RequestBody.envelope { Payload := reqPayload, Signature := some sign })
          (decodeResponse env.decodeBody env.unmarshalResult (env.doRequest r),
           { sent := [r], signedOver := [reqPayload], custodyCalls := resolved.2 })

/-- `WalletClient.UpdatePOE` (POE operations file): identical sequence to
`CreatePOE` with PUT `/v1/poe/update`. -/
def UpdatePOE {B R : Type} (env : Env B R) (header : Header)
    (body : Option B) (signParams : Option SignatureParam) :
    Except WalletError R × OpTrace :=
  match body with
  | none => (Except.error (WalletError.precondition "request payload invalid"), OpTrace.empty)
  | some b =>
    let resolved := resolveSignParams env header signParams
    match resolved.1 with
    | Except.error e =>
        (Except.error (WalletError.custody e),
         { sent := [], signedOver := [], custodyCalls := resolved.2 })
    | Except.ok signParams2 =>
      match env.marshal b with
      | Except.error e =>
          (Except.error (WalletError.encodeErr e),
           { sent := [], signedOver := [], custodyCalls := resolved.2 })
      | Except.ok reqPayload =>
        match env.buildSignatureBody signParams2 reqPayload with
        | Except.error e =>
            (Except.error (WalletError.signing e),
             { sent := [], signedOver := [reqPayload], custodyCalls := resolved.2 })
        | Except.ok sign =>
          let r := ((newRequest "PUT" "/v1/poe/update").setHeaders header).setBody
              (RequestBody.envelope { Payload := reqPayload, Signature := some sign })
          (decodeResponse env.decodeBody env.unmarshalResult (env.doRequest r),
           { sent := [r], signedOver := [reqPayload], custodyCalls := resolved.2 })

/-- `WalletClient.QueryPOE` (POE operations file): GET `/v1/poe` with the
`id` query parameter, dispatch, decode.  Note the source performs no
emptiness check on `id`. -/
def QueryPOE {B R : Type} (env : Env B R) (header : Header)
    (id : String) : Except WalletError R × OpTrace :=
  let r := ((newRequest "GET" "/v1/poe").setHeaders header).setParam "id" id
  (decodeResponse env.decodeBody env.unmarshalResult (env.doRequest r),
   { sent := [r], signedOver := [], custodyCalls := 0 })

/-- Multipart form-field name constant `wallet.OffchainPOEID` (defined in
the sdk-go-common collaborator; the exact value is immaterial to every
property below, only its position in the body matters). -/
def OffchainPOEID : String := "poe_id"

/-- Multipart form-field name constant `wallet.OffchainReadOnly`. -/
def OffchainReadOnly : String := "read_only"

/-- Multipart form-field name constant `wallet.OffchainPOEFile`. -/
def OffchainPOEFile : String := "poe_file"

/-- Go's `strconv.FormatBool`: `"true"` or `"false"`. -/
def formatBool (b : Bool) : String :=
  if b then "true" else "false"

/-- Go's `writer.FormDataContentType()` (the boundary string is immaterial
to every property below). -/
def formDataContentType : String := "multipart/form-data"

/-- `WalletClient.UploadPOEFile` (POE operations file): empty poeID and
poeFile guards; build the multipart body by `writer.WriteField` of the POE
id, `writer.WriteField` of the read-only flag via `strconv.FormatBool`,
`writer.CreateFormFile` plus `io.Copy` of the opened local file, and
`writer.Close()` appending the terminating boundary; then POST
`/v1/poe/upload` with the multipart content type, dispatch, decode.
`os.Open` failure (file absent in `env.fs`) returns before dispatch. -/
def UploadPOEFile {B R : Type} (env : Env B R) (header : Header)
    (poeID : String) (poeFile : String) (readOnly : Bool) :
    Except WalletError R × OpTrace :=
  if poeID = "" then
    (Except.error (WalletError.precondition "poe id must be set when uploading poe file"),
     OpTrace.empty)
  else if poeFile = "" then
    (Except.error (WalletError.precondition "poe file must be set when uploading poe file"),
     OpTrace.empty)
  else
    let buf1 : List MultipartItem := [MultipartItem.field OffchainPOEID poeID]
    let buf2 := buf1 ++ [MultipartItem.field OffchainReadOnly (formatBool readOnly)]
    match env.fs poeFile with
    | none => (Except.error (WalletError.fileOpen poeFile), OpTrace.empty)
    | some content =>
      let buf3 := buf2 ++ [MultipartItem.filePart OffchainPOEFile poeFile content]
      let buf4 := buf3 ++ [MultipartItem.closingBoundary]
      let r := (((newRequest "POST" "/v1/poe/upload").setHeaders header).setHeader
          "Content-Type" formDataContentType).setBody (RequestBody.multipart buf4)
      (decodeResponse env.decodeBody env.unmarshalResult (env.doRequest r),
       { sent := [r], signedOver := [], custodyCalls := 0 })

/-- The request dispatched by `IssueCToken` on the success path. -/
def issueCTokenReq (header : Header) (payload : String) (sign : Option SignatureBody) : Request :=
  ((newRequest "POST" "/v1/transaction/tokens/issue").setHeaders header).setBody
    (RequestBody.envelope { Payload := payload, Signature := sign })

/-- The request dispatched by `IssueAsset` on the success path. -/
def issueAssetReq (header : Header) (payload : String) (sign : Option SignatureBody) : Request :=
  ((newRequest "POST" "/v1/transaction/assets/issue").setHeaders header).setBody
    (RequestBody.envelope { Payload := payload, Signature := sign })

/-- The request dispatched by `TransferCToken` on the success path. -/
def transferCTokenReq (header : Header) (payload : String) (sign : Option SignatureBody) : Request :=
  ((newRequest "POST" "/v1/transaction/tokens/transfer").setHeaders header).setBody
    (RequestBody.envelope { Payload := payload, Signature := sign })

/-- The request dispatched by `TransferAsset` on the success path. -/
def transferAssetReq (header : Header) (payload : String) (sign : Option SignatureBody) : Request :=
  ((newRequest "POST" "/v1/transaction/assets/transfer").setHeaders header).setBody
    (RequestBody.envelope { Payload := payload, Signature := sign })

/-- The request dispatched by `QueryTransactionLogs` on the success path. -/
def queryTxLogsReq (header : Header) (id txType : String) : Request :=
  (((newRequest "GET" "/v1/transaction/logs").setHeaders header).setParam "id" id).setParam
    "type" txType

/-- The request dispatched by `CreatePOE` on the success path. -/
def createPOEReq (header : Header) (payload : String) (sign : SignatureBody) : Request :=
  ((newRequest "POST" "/v1/poe/create").setHeaders header).setBody
    (RequestBody.envelope { Payload := payload, Signature := some sign })

/-- The request dispatched by `UpdatePOE` on the success path. -/
def updatePOEReq (header : Header) (payload : String) (sign : SignatureBody) : Request :=
  ((newRequest "PUT" "/v1/poe/update").setHeaders header).setBody
    (RequestBody.envelope { Payload := payload, Signature := some sign })

/-- The request dispatched by `QueryPOE` (always). -/
def queryPOEReq (header : Header) (id : String) : Request :=
  ((newRequest "GET" "/v1/poe").setHeaders header).setParam "id" id

/-- The finalized multipart body built by `UploadPOEFile`. -/
def uploadBody (poeID poeFile : String) (readOnly : Bool) (content : List Nat) :
    List MultipartItem :=
  [MultipartItem.field OffchainPOEID poeID,
   MultipartItem.field OffchainReadOnly (formatBool readOnly),
   MultipartItem.filePart OffchainPOEFile poeFile content,
   MultipartItem.closingBoundary]

/-- The request dispatched by `UploadPOEFile` on the success path. -/
def uploadReq (header : Header) (poeID poeFile : String) (readOnly : Bool)
    (content : List Nat) : Request :=
  (((newRequest "POST" "/v1/poe/upload").setHeaders header).setHeader "Content-Type"
    formDataContentType).setBody (RequestBody.multipart (uploadBody poeID poeFile readOnly content))

/-- `IssueCToken` with a non-nil body whose marshalling succeeds dispatches
exactly the issue-ctoken request and decodes its raw response. -/
theorem IssueCToken_dispatch {B R : Type} (env : Env B R) (header : Header)
    (b : B) (sign : Option SignatureBody) (pl : String)
    (hm : env.marshal b = Except.ok pl) :
    IssueCToken env header (some b) sign =
      (decodeResponse env.decodeBody env.unmarshalResult
        (env.doRequest (issueCTokenReq header pl sign)),
       { sent := [issueCTokenReq header pl sign], signedOver := [], custodyCalls := 0 }) := by
  simp [IssueCToken, hm, issueCTokenReq]

/-- `IssueAsset` dispatch shape. -/
theorem IssueAsset_dispatch {B R : Type} (env : Env B R) (header : Header)
    (b : B) (sign : Option SignatureBody) (pl : String)
    (hm : env.marshal b = Except.ok pl) :
    IssueAsset env header (some b) sign =
      (decodeResponse env.decodeBody env.unmarshalResult
        (env.doRequest (issueAssetReq header pl sign)),
       { sent := [issueAssetReq header pl sign], signedOver := [], custodyCalls := 0 }) := by
  simp [IssueAsset, hm, issueAssetReq]

/-- `TransferCToken` dispatch shape. -/
theorem TransferCToken_dispatch {B R : Type} (env : Env B R) (header : Header)
    (b : B) (sign : Option SignatureBody) (pl : String)
    (hm : env.marshal b = Except.ok pl) :
    TransferCToken env header (some b) sign =
      (decodeResponse env.decodeBody env.unmarshalResult
        (env.doRequest (transferCTokenReq header pl sign)),
       { sent := [transferCTokenReq header pl sign], signedOver := [], custodyCalls := 0 }) := by
  simp [TransferCToken, hm, transferCTokenReq]

/-- `TransferAsset` dispatch shape. -/
theorem TransferAsset_dispatch {B R : Type} (env : Env B R) (header : Header)
    (b : B) (sign : Option SignatureBody) (pl : String)
    (hm : env.marshal b = Except.ok pl) :
    TransferAsset env header (some b) sign =
      (decodeResponse env.decodeBody env.unmarshalResult
        (env.doRequest (transferAssetReq header pl sign)),
       { sent := [transferAssetReq header pl sign], signedOver := [], custodyCalls := 0 }) := by
  simp [TransferAsset, hm, transferAssetReq]

/-- `QueryTransactionLogs` with a non-empty id dispatches the logs query
request and decodes its raw response. -/
theorem QueryTransactionLogs_dispatch {B R : Type} (env : Env B R) (header : Header)
    (id txType : String) (hid : id ≠ "") :
    QueryTransactionLogs env header id txType =
      (decodeResponse env.decodeBody env.unmarshalResult
        (env.doRequest (queryTxLogsReq header id txType)),
       { sent := [queryTxLogsReq header id txType], signedOver := [], custodyCalls := 0 }) := by
  simp [QueryTransactionLogs, hid, queryTxLogsReq]

/-- `CreatePOE` with non-nil body, successful custody resolution,
marshalling and signing dispatches the create-POE request carrying the
marshalled bytes and decodes its raw response. -/
theorem CreatePOE_dispatch {B R : Type} (env : Env B R) (header : Header)
    (b : B) (signParams sp2 : Option SignatureParam) (n : Nat) (pl : String)
    (sign : SignatureBody)
    (hres : resolveSignParams env header signParams = (Except.ok sp2, n))
    (hm : env.marshal b = Except.ok pl)
    (hs : env.buildSignatureBody sp2 pl = Except.ok sign) :
    CreatePOE env header (some b) signParams =
      (decodeResponse env.decodeBody env.unmarshalResult
        (env.doRequest (createPOEReq header pl sign)),
       { sent := [createPOEReq header pl sign], signedOver := [pl], custodyCalls := n }) := by
  simp [CreatePOE, hres, hm, hs, createPOEReq]

/-- `UpdatePOE` dispatch shape. -/
theorem UpdatePOE_dispatch {B R : Type} (env : Env B R) (header : Header)
    (b : B) (signParams sp2 : Option SignatureParam) (n : Nat) (pl : String)
    (sign : SignatureBody)
    (hres : resolveSignParams env header signParams = (Except.ok sp2, n))
    (hm : env.marshal b = Except.ok pl)
    (hs : env.buildSignatureBody sp2 pl = Except.ok sign) :
    UpdatePOE env header (some b) signParams =
      (decodeResponse env.decodeBody env.unmarshalResult
        (env.doRequest (updatePOEReq header pl sign)),
       { sent := [updatePOEReq header pl sign], signedOver := [pl], custodyCalls := n }) := by
  simp [UpdatePOE, hres, hm, hs, updatePOEReq]

/-- `QueryPOE` always dispatches the POE query request and decodes its raw
response (there is no id guard in the source). -/
theorem QueryPOE_dispatch {B R : Type} (env : Env B R) (header : Header) (id : String) :
    QueryPOE env header id =
      (decodeResponse env.decodeBody env.unmarshalResult
        (env.doRequest (queryPOEReq header id)),
       { sent := [queryPOEReq header id], signedOver := [], custodyCalls := 0 }) := by
  simp [QueryPOE, queryPOEReq]

/-- `UploadPOEFile` with non-empty metadata and an existing file dispatches
the upload request carrying the finalized multipart body and decodes its
raw response. -/
theorem UploadPOEFile_dispatch {B R : Type} (env : Env B R) (header : Header)
    (poeID poeFile : String) (readOnly : Bool) (content : List Nat)
    (hid : poeID ≠ "") (hfile : poeFile ≠ "")
    (hfs : env.fs poeFile = some content) :
    UploadPOEFile env header poeID poeFile readOnly =
      (decodeResponse env.decodeBody env.unmarshalResult
        (env.doRequest (uploadReq header poeID poeFile readOnly content)),
       { sent := [uploadReq header poeID poeFile readOnly content],
         signedOver := [], custodyCalls := 0 }) := by
  simp [UploadPOEFile, hid, hfile, hfs, uploadReq, uploadBody]

/-- Step-1 short-circuit: a transport-layer failure yields the transport
error whatever the envelope decoder and payload parser would do. -/
theorem decodeResponse_transport {R : Type} (db : String → Except String Response)
    (um : String → Except String R) (e : String) :
    decodeResponse db um (Except.error e) = Except.error (WalletError.transport e) := rfl

/-- Step-1 short-circuit on status: a non-200 status yields the transport
error whatever the envelope decoder and payload parser would do. -/
theorem decodeResponse_badStatus {R : Type} (db : String → Except String Response)
    (um : String → Except String R) (resp : HttpResponse) (h : resp.status ≠ 200) :
    decodeResponse db um (Except.ok resp) =
      Except.error (WalletError.transport ("Unexpected response code: " ++ toString resp.status)) := by
  simp [decodeResponse, requireOK, Except.bind, h]

/-- Step-2 short-circuit: with status 200, a malformed outer envelope
yields the decode error whatever the payload parser would do. -/
theorem decodeResponse_decodeErr {R : Type} (db : String → Except String Response)
    (um : String → Except String R) (resp : HttpResponse) (m : String)
    (hst : resp.status = 200) (hdb : db resp.body = Except.error m) :
    decodeResponse db um (Except.ok resp) = Except.error (WalletError.decodeErr m) := by
  simp [decodeResponse, requireOK, Except.bind, hst, decodeEnvelope, hdb]

/-- Step-3 short-circuit: with status 200 and a well-formed envelope whose
error code is not the success code, the result is the coded remote error
carrying exactly that code and message, whatever the payload field holds
and whatever the payload parser would do. -/
theorem decodeResponse_coded {R : Type} (db : String → Except String Response)
    (um : String → Except String R) (resp : HttpResponse) (rb : Response)
    (hst : resp.status = 200) (hdb : db resp.body = Except.ok rb)
    (hcode : rb.ErrCode ≠ SuccCode) :
    decodeResponse db um (Except.ok resp) =
      Except.error (WalletError.coded rb.ErrCode rb.ErrMessage) := by
  simp [decodeResponse, requireOK, Except.bind, hst, decodeEnvelope, hdb, checkErrCode, hcode]

/-- Step-4 short-circuit: with a success code and a payload that is not a
string (absent, or present with another type), the result is the
payload-type error naming the observed Go type, whatever the payload
parser would do. -/
theorem decodeResponse_payloadType {R : Type} (db : String → Except String Response)
    (um : String → Except String R) (resp : HttpResponse) (rb : Response)
    (hst : resp.status = 200) (hdb : db resp.body = Except.ok rb)
    (hcode : rb.ErrCode = SuccCode)
    (hp : ∀ s, rb.Payload ≠ some (GoValue.str s)) :
    decodeResponse db um (Except.ok resp) =
      Except.error (WalletError.payloadTypeInvalid (goTypeName rb.Payload)) := by
  have hassert : assertPayloadString rb =
      Except.error (WalletError.payloadTypeInvalid (goTypeName rb.Payload)) := by
    unfold assertPayloadString
    rcases hpl : rb.Payload with _ | v
    · rfl
    · cases v with
      | str s => exact absurd hpl (hp s)
      | num n => rfl
      | boolean b => rfl
      | arr xs => rfl
      | obj fs => rfl
  simp [decodeResponse, requireOK, Except.bind, hst, decodeEnvelope, hdb, checkErrCode, hcode, hassert]

/-- Step-5: with a success code and a string payload, the result is the
nested JSON parse of exactly that string into the operation's result
type. -/
theorem decodeResponse_success {R : Type} (db : String → Except String Response)
    (um : String → Except String R) (resp : HttpResponse) (rb : Response) (s : String)
    (hst : resp.status = 200) (hdb : db resp.body = Except.ok rb)
    (hcode : rb.ErrCode = SuccCode) (hp : rb.Payload = some (GoValue.str s)) :
    decodeResponse db um (Except.ok resp) = parsePayload um s := by
  simp [decodeResponse, requireOK, Except.bind, hst, decodeEnvelope, hdb, checkErrCode, hcode,
    assertPayloadString, hp]

/-- C1: for every operation (IssueCToken, IssueAsset, TransferCToken,
TransferAsset, QueryTransactionLogs, CreatePOE, UpdatePOE, QueryPOE,
UploadPOEFile), decoding a response is exactly the five-step sequence
`requireOK` (expected success status, else transport error), envelope
JSON-decode (else decode error), success-code comparison (else coded
remote error), payload string assertion (else payload-type error), nested
payload JSON-parse (else decode error), in this order: each operation's
result is `decodeResponse` applied to its dispatched request's raw
response, `decodeResponse` is the bind-chain of the five step functions,
and each step short-circuits — once a step fails, the result is that
step's error for every possible behaviour of the later steps. -/
theorem claim_C1_decode_five_steps :
    (∀ (B R : Type) (env : Env B R) (header : Header) (b : B)
        (sign : Option SignatureBody) (pl : String),
      env.marshal b = Except.ok pl →
      (IssueCToken env header (some b) sign).1 =
        decodeResponse env.decodeBody env.unmarshalResult
          (env.doRequest (issueCTokenReq header pl sign)))
    ∧ (∀ (B R : Type) (env : Env B R) (header : Header) (b : B)
        (sign : Option SignatureBody) (pl : String),
      env.marshal b = Except.ok pl →
      (IssueAsset env header (some b) sign).1 =
        decodeResponse env.decodeBody env.unmarshalResult
          (env.doRequest (issueAssetReq header pl sign)))
    ∧ (∀ (B R : Type) (env : Env B R) (header : Header) (b : B)
        (sign : Option SignatureBody) (pl : String),
      env.marshal b = Except.ok pl →
      (TransferCToken env header (some b) sign).1 =
        decodeResponse env.decodeBody env.unmarshalResult
          (env.doRequest (transferCTokenReq header pl sign)))
    ∧ (∀ (B R : Type) (env : Env B R) (header : Header) (b : B)
        (sign : Option SignatureBody) (pl : String),
      env.marshal b = Except.ok pl →
      (TransferAsset env header (some b) sign).1 =
        decodeResponse env.decodeBody env.unmarshalResult
          (env.doRequest (transferAssetReq header pl sign)))
    ∧ (∀ (B R : Type) (env : Env B R) (header : Header) (id txType : String),
      id ≠ "" →
      (QueryTransactionLogs env header id txType).1 =
        decodeResponse env.decodeBody env.unmarshalResult
          (env.doRequest (queryTxLogsReq header id txType)))
    ∧ (∀ (B R : Type) (env : Env B R) (header : Header) (b : B)
        (signParams sp2 : Option SignatureParam) (n : Nat) (pl : String) (sign : SignatureBody),
      resolveSignParams env header signParams = (Except.ok sp2, n) →
      env.marshal b = Except.ok pl →
      env.buildSignatureBody sp2 pl = Except.ok sign →
      (CreatePOE env header (some b) signParams).1 =
        decodeResponse env.decodeBody env.unmarshalResult
          (env.doRequest (createPOEReq header pl sign)))
    ∧ (∀ (B R : Type) (env : Env B R) (header : Header) (b : B)
        (signParams sp2 : Option SignatureParam) (n : Nat) (pl : String) (sign : SignatureBody),
      resolveSignParams env header signParams = (Except.ok sp2, n) →
      env.marshal b = Except.ok pl →
      env.buildSignatureBody sp2 pl = Except.ok sign →
      (UpdatePOE env header (some b) signParams).1 =
        decodeResponse env.decodeBody env.unmarshalResult
          (env.doRequest (updatePOEReq header pl sign)))
    ∧ (∀ (B R : Type) (env : Env B R) (header : Header) (id : String),
      (QueryPOE env header id).1 =
        decodeResponse env.decodeBody env.unmarshalResult
          (env.doRequest (queryPOEReq header id)))
    ∧ (∀ (B R : Type) (env : Env B R) (header : Header)
        (poeID poeFile : String) (readOnly : Bool) (content : List Nat),
      poeID ≠ "" → poeFile ≠ "" → env.fs poeFile = some content →
      (UploadPOEFile env header poeID poeFile readOnly).1 =
        decodeResponse env.decodeBody env.unmarshalResult
          (env.doRequest (uploadReq header poeID poeFile readOnly content)))
    ∧ (∀ (R : Type) (db : String → Except String Response)
        (um : String → Except String R) (raw : Except String HttpResponse),
      decodeResponse db um raw =
        (requireOK raw).bind (fun resp =>
          (decodeEnvelope db resp).bind (fun respBody =>
            (checkErrCode respBody).bind (fun rb =>
              (assertPayloadString rb).bind (fun respPayload =>
                parsePayload um respPayload)))))
    ∧ (∀ (R : Type) (db : String → Except String Response)
        (um : String → Except String R) (e : String),
      decodeResponse db um (Except.error e) = Except.error (WalletError.transport e))
    ∧ (∀ (R : Type) (db : String → Except String Response)
        (um : String → Except String R) (resp : HttpResponse),
      resp.status ≠ 200 →
      decodeResponse db um (Except.ok resp) =
        Except.error (WalletError.transport
          ("Unexpected response code: " ++ toString resp.status)))
    ∧ (∀ (R : Type) (db : String → Except String Response)
        (um : String → Except String R) (resp : HttpResponse) (m : String),
      resp.status = 200 → db resp.body = Except.error m →
      decodeResponse db um (Except.ok resp) = Except.error (WalletError.decodeErr m))
    ∧ (∀ (R : Type) (db : String → Except String Response)
        (um : String → Except String R) (resp : HttpResponse) (rb : Response),
      resp.status = 200 → db resp.body = Except.ok rb → rb.ErrCode ≠ SuccCode →
      decodeResponse db um (Except.ok resp) =
        Except.error (WalletError.coded rb.ErrCode rb.ErrMessage))
    ∧ (∀ (R : Type) (db : String → Except String Response)
        (um : String → Except String R) (resp : HttpResponse) (rb : Response),
      resp.status = 200 → db resp.body = Except.ok rb → rb.ErrCode = SuccCode →
      (∀ s, rb.Payload ≠ some (GoValue.str s)) →
      decodeResponse db um (Except.ok resp) =
        Except.error (WalletError.payloadTypeInvalid (goTypeName rb.Payload)))
    ∧ (∀ (R : Type) (db : String → Except String Response)
        (um : String → Except String R) (resp : HttpResponse) (rb : Response) (s : String),
      resp.status = 200 → db resp.body = Except.ok rb → rb.ErrCode = SuccCode →
      rb.Payload = some (GoValue.str s) →
      decodeResponse db um (Except.ok resp) = parsePayload um s) := by
  refine ⟨?_, ?_, ?_, ?_, ?_, ?_, ?_, ?_, ?_, ?_, ?_, ?_, ?_, ?_, ?_, ?_⟩
  · intro B R env header b sign pl hm
    rw [IssueCToken_dispatch env header b sign pl hm]
  · intro B R env header b sign pl hm
    rw [IssueAsset_dispatch env header b sign pl hm]
  · intro B R env header b sign pl hm
    rw [TransferCToken_dispatch env header b sign pl hm]
  · intro B R env header b sign pl hm
    rw [TransferAsset_dispatch env header b sign pl hm]
  · intro B R env header id txType hid
    rw [QueryTransactionLogs_dispatch env header id txType hid]
  · intro B R env header b signParams sp2 n pl sign hres hm hs
    rw [CreatePOE_dispatch env header b signParams sp2 n pl sign hres hm hs]
  · intro B R env header b signParams sp2 n pl sign hres hm hs
    rw [UpdatePOE_dispatch env header b signParams sp2 n pl sign hres hm hs]
  · intro B R env header id
    rw [QueryPOE_dispatch env header id]
  · intro B R env header poeID poeFile readOnly content hid hfile hfs
    rw [UploadPOEFile_dispatch env header poeID poeFile readOnly content hid hfile hfs]
  · intro R db um raw
    rfl
  · intro R db um e
    exact decodeResponse_transport db um e
  · intro R db um resp h
    exact decodeResponse_badStatus db um resp h
  · intro R db um resp m hst hdb
    exact decodeResponse_decodeErr db um resp m hst hdb
  · intro R db um resp rb hst hdb hcode
    exact decodeResponse_coded db um resp rb hst hdb hcode
  · intro R db um resp rb hst hdb hcode hp
    exact decodeResponse_payloadType db um resp rb hst hdb hcode hp
  · intro R db um resp rb s hst hdb hcode hp
    exact decodeResponse_success db um resp rb s hst hdb hcode hp

/-- A concrete environment used by the witness theorems: marshalling
yields the bytes `"mb"`, custody is active and returns the given
parameters, signing wraps the payload, the transport answers status 200
with body `"ok"`, the envelope decoder reports success with the string
payload `"7"`, the result parser returns the payload's length, and the
file system holds exactly one file. -/
def witEnv : Env Unit Nat :=
  { marshal := fun _ => Except.ok "mb"
  , hasCustody := true
  , queryPrivateKey := fun _ p => Except.ok p
  , buildSignatureBody := fun _ pl =>
      Except.ok { Creator := "c", Nonce := "n", SignatureValue := pl }
  , doRequest := fun _ => Except.ok { status := 200, body := "ok" }
  , decodeBody := fun _ =>
      Except.ok { ErrCode := 0, ErrMessage := "", Payload := some (GoValue.str "7") }
  , unmarshalResult := fun s => Except.ok s.length
  , fs := fun p => if p = "f.txt" then some [1, 2, 3] else none }

/-- Witness for C1: the pipeline facts instantiated at `witEnv` with all
hypotheses discharged on concrete inputs. -/
theorem claim_C1_witness :
    ((IssueCToken witEnv [] (some ()) none).1 =
      decodeResponse witEnv.decodeBody witEnv.unmarshalResult
        (witEnv.doRequest (issueCTokenReq [] "mb" none)))
    ∧ ((QueryTransactionLogs witEnv [] "tx1" "in").1 =
      decodeResponse witEnv.decodeBody witEnv.unmarshalResult
        (witEnv.doRequest (queryTxLogsReq [] "tx1" "in")))
    ∧ ((CreatePOE witEnv [] (some ()) none).1 =
      decodeResponse witEnv.decodeBody witEnv.unmarshalResult
        (witEnv.doRequest (createPOEReq [] "mb"
          { Creator := "c", Nonce := "n", SignatureValue := "mb" })))
    ∧ ((UploadPOEFile witEnv [] "p1" "f.txt" true).1 =
      decodeResponse witEnv.decodeBody witEnv.unmarshalResult
        (witEnv.doRequest (uploadReq [] "p1" "f.txt" true [1, 2, 3])))
    ∧ (decodeResponse witEnv.decodeBody witEnv.unmarshalResult
        (Except.error "boom") = Except.error (WalletError.transport "boom"))
    ∧ (decodeResponse witEnv.decodeBody witEnv.unmarshalResult
        (Except.ok { status := 500, body := "x" }) =
      Except.error (WalletError.transport ("Unexpected response code: " ++ toString 500))) := by
  refine ⟨?_, ?_, ?_, ?_, ?_, ?_⟩
  · exact claim_C1_decode_five_steps.1 Unit Nat witEnv [] () none "mb" rfl
  · exact claim_C1_decode_five_steps.2.2.2.2.1 Unit Nat witEnv [] "tx1" "in" (by decide)
  · exact claim_C1_decode_five_steps.2.2.2.2.2.1 Unit Nat witEnv [] () none none 1 "mb"
      { Creator := "c", Nonce := "n", SignatureValue := "mb" } rfl rfl rfl
  · exact claim_C1_decode_five_steps.2.2.2.2.2.2.2.2.1 Unit Nat witEnv [] "p1" "f.txt" true
      [1, 2, 3] (by decide) (by decide) (by simp [witEnv])
  · exact claim_C1_decode_five_steps.2.2.2.2.2.2.2.2.2.2.1 Nat
      witEnv.decodeBody witEnv.unmarshalResult "boom"
  · exact claim_C1_decode_five_steps.2.2.2.2.2.2.2.2.2.2.2.1 Nat
      witEnv.decodeBody witEnv.unmarshalResult { status := 500, body := "x" } (by decide)

/-- C3: for every operation, whenever the decoded response envelope's
error code differs from the success code, the operation returns the coded
remote error carrying exactly that envelope's code and message.  The
envelope's payload field and the payload parser are universally
quantified (through `rb` and `env`), so the conclusion holds whatever the
payload holds and whatever parsing it would do: the payload is never
inspected in this case. -/
theorem claim_C3_coded_error_verbatim :
    (∀ (B R : Type) (env : Env B R) (header : Header) (b : B)
        (sign : Option SignatureBody) (pl : String) (resp : HttpResponse) (rb : Response),
      env.marshal b = Except.ok pl →
      env.doRequest (issueCTokenReq header pl sign) = Except.ok resp →
      resp.status = 200 → env.decodeBody resp.body = Except.ok rb →
      rb.ErrCode ≠ SuccCode →
      (IssueCToken env header (some b) sign).1 =
        Except.error (WalletError.coded rb.ErrCode rb.ErrMessage))
    ∧ (∀ (B R : Type) (env : Env B R) (header : Header) (b : B)
        (sign : Option SignatureBody) (pl : String) (resp : HttpResponse) (rb : Response),
      env.marshal b = Except.ok pl →
      env.doRequest (issueAssetReq header pl sign) = Except.ok resp →
      resp.status = 200 → env.decodeBody resp.body = Except.ok rb →
      rb.ErrCode ≠ SuccCode →
      (IssueAsset env header (some b) sign).1 =
        Except.error (WalletError.coded rb.ErrCode rb.ErrMessage))
    ∧ (∀ (B R : Type) (env : Env B R) (header : Header) (b : B)
        (sign : Option SignatureBody) (pl : String) (resp : HttpResponse) (rb : Response),
      env.marshal b = Except.ok pl →
      env.doRequest (transferCTokenReq header pl sign) = Except.ok resp →
      resp.status = 200 → env.decodeBody resp.body = Except.ok rb →
      rb.ErrCode ≠ SuccCode →
      (TransferCToken env header (some b) sign).1 =
        Except.error (WalletError.coded rb.ErrCode rb.ErrMessage))
    ∧ (∀ (B R : Type) (env : Env B R) (header : Header) (b : B)
        (sign : Option SignatureBody) (pl : String) (resp : HttpResponse) (rb : Response),
      env.marshal b = Except.ok pl →
      env.doRequest (transferAssetReq header pl sign) = Except.ok resp →
      resp.status = 200 → env.decodeBody resp.body = Except.ok rb →
      rb.ErrCode ≠ SuccCode →
      (TransferAsset env header (some b) sign).1 =
        Except.error (WalletError.coded rb.ErrCode rb.ErrMessage))
    ∧ (∀ (B R : Type) (env : Env B R) (header : Header) (id txType : String)
        (resp : HttpResponse) (rb : Response),
      id ≠ "" →
      env.doRequest (queryTxLogsReq header id txType) = Except.ok resp →
      resp.status = 200 → env.decodeBody resp.body = Except.ok rb →
      rb.ErrCode ≠ SuccCode →
      (QueryTransactionLogs env header id txType).1 =
        Except.error (WalletError.coded rb.ErrCode rb.ErrMessage))
    ∧ (∀ (B R : Type) (env : Env B R) (header : Header) (b : B)
        (signParams sp2 : Option SignatureParam) (n : Nat) (pl : String)
        (sign : SignatureBody) (resp : HttpResponse) (rb : Response),
      resolveSignParams env header signParams = (Except.ok sp2, n) →
      env.marshal b = Except.ok pl →
      env.buildSignatureBody sp2 pl = Except.ok sign →
      env.doRequest (createPOEReq header pl sign) = Except.ok resp →
      resp.status = 200 → env.decodeBody resp.body = Except.ok rb →
      rb.ErrCode ≠ SuccCode →
      (CreatePOE env header (some b) signParams).1 =
        Except.error (WalletError.coded rb.ErrCode rb.ErrMessage))
    ∧ (∀ (B R : Type) (env : Env B R) (header : Header) (b : B)
        (signParams sp2 : Option SignatureParam) (n : Nat) (pl : String)
        (sign : SignatureBody) (resp : HttpResponse) (rb : Response),
      resolveSignParams env header signParams = (Except.ok sp2, n) →
      env.marshal b = Except.ok pl →
      env.buildSignatureBody sp2 pl = Except.ok sign →
      env.doRequest (updatePOEReq header pl sign) = Except.ok resp →
      resp.status = 200 → env.decodeBody resp.body = Except.ok rb →
      rb.ErrCode ≠ SuccCode →
      (UpdatePOE env header (some b) signParams).1 =
        Except.error (WalletError.coded rb.ErrCode rb.ErrMessage))
    ∧ (∀ (B R : Type) (env : Env B R) (header : Header) (id : String)
        (resp : HttpResponse) (rb : Response),
      env.doRequest (queryPOEReq header id) = Except.ok resp →
      resp.status = 200 → env.decodeBody resp.body = Except.ok rb →
      rb.ErrCode ≠ SuccCode →
      (QueryPOE env header id).1 =
        Except.error (WalletError.coded rb.ErrCode rb.ErrMessage))
    ∧ (∀ (B R : Type) (env : Env B R) (header : Header)
        (poeID poeFile : String) (readOnly : Bool) (content : List Nat)
        (resp : HttpResponse) (rb : Response),
      poeID ≠ "" → poeFile ≠ "" → env.fs poeFile = some content →
      env.doRequest (uploadReq header poeID poeFile readOnly content) = Except.ok resp →
      resp.status = 200 → env.decodeBody resp.body = Except.ok rb →
      rb.ErrCode ≠ SuccCode →
      (UploadPOEFile env header poeID poeFile readOnly).1 =
        Except.error (WalletError.coded rb.ErrCode rb.ErrMessage)) := by
  refine ⟨?_, ?_, ?_, ?_, ?_, ?_, ?_, ?_, ?_⟩
  · intro B R env header b sign pl resp rb hm hdo hst hdb hcode
    rw [IssueCToken_dispatch env header b sign pl hm]
    show decodeResponse env.decodeBody env.unmarshalResult
      (env.doRequest (issueCTokenReq header pl sign)) = _
    rw [hdo]
    exact decodeResponse_coded env.decodeBody env.unmarshalResult resp rb hst hdb hcode
  · intro B R env header b sign pl resp rb hm hdo hst hdb hcode
    rw [IssueAsset_dispatch env header b sign pl hm]
    show decodeResponse env.decodeBody env.unmarshalResult
      (env.doRequest (issueAssetReq header pl sign)) = _
    rw [hdo]
    exact decodeResponse_coded env.decodeBody env.unmarshalResult resp rb hst hdb hcode
  · intro B R env header b sign pl resp rb hm hdo hst hdb hcode
    rw [TransferCToken_dispatch env header b sign pl hm]
    show decodeResponse env.decodeBody env.unmarshalResult
      (env.doRequest (transferCTokenReq header pl sign)) = _
    rw [hdo]
    exact decodeResponse_coded env.decodeBody env.unmarshalResult resp rb hst hdb hcode
  · intro B R env header b sign pl resp rb hm hdo hst hdb hcode
    rw [TransferAsset_dispatch env header b sign pl hm]
    show decodeResponse env.decodeBody env.unmarshalResult
      (env.doRequest (transferAssetReq header pl sign)) = _
    rw [hdo]
    exact decodeResponse_coded env.decodeBody env.unmarshalResult resp rb hst hdb hcode
  · intro B R env header id txType resp rb hid hdo hst hdb hcode
    rw [QueryTransactionLogs_dispatch env header id txType hid]
    show decodeResponse env.decodeBody env.unmarshalResult
      (env.doRequest (queryTxLogsReq header id txType)) = _
    rw [hdo]
    exact decodeResponse_coded env.decodeBody env.unmarshalResult resp rb hst hdb hcode
  · intro B R env header b signParams sp2 n pl sign resp rb hres hm hs hdo hst hdb hcode
    rw [CreatePOE_dispatch env header b signParams sp2 n pl sign hres hm hs]
    show decodeResponse env.decodeBody env.unmarshalResult
      (env.doRequest (createPOEReq header pl sign)) = _
    rw [hdo]
    exact decodeResponse_coded env.decodeBody env.unmarshalResult resp rb hst hdb hcode
  · intro B R env header b signParams sp2 n pl sign resp rb hres hm hs hdo hst hdb hcode
    rw [UpdatePOE_dispatch env header b signParams sp2 n pl sign hres hm hs]
    show decodeResponse env.decodeBody env.unmarshalResult
      (env.doRequest (updatePOEReq header pl sign)) = _
    rw [hdo]
    exact decodeResponse_coded env.decodeBody env.unmarshalResult resp rb hst hdb hcode
  · intro B R env header id resp rb hdo hst hdb hcode
    rw [QueryPOE_dispatch env header id]
    show decodeResponse env.decodeBody env.unmarshalResult
      (env.doRequest (queryPOEReq header id)) = _
    rw [hdo]
    exact decodeResponse_coded env.decodeBody env.unmarshalResult resp rb hst hdb hcode
  · intro B R env header poeID poeFile readOnly content resp rb hid hfile hfs hdo hst hdb hcode
    rw [UploadPOEFile_dispatch env header poeID poeFile readOnly content hid hfile hfs]
    show decodeResponse env.decodeBody env.unmarshalResult
      (env.doRequest (uploadReq header poeID poeFile readOnly content)) = _
    rw [hdo]
    exact decodeResponse_coded env.decodeBody env.unmarshalResult resp rb hst hdb hcode

/-- A response envelope carrying the remote error code 5 and message
`"boom"` while a string payload is still present. -/
def errEnvelope : Response :=
  { ErrCode := 5, ErrMessage := "boom", Payload := some (GoValue.str "7") }

/-- The 200-status raw response answered by the witness transports. -/
def okResp : HttpResponse := { status := 200, body := "ok" }

/-- The signature produced by the witness environment over `"mb"`. -/
def witSign : SignatureBody := { Creator := "c", Nonce := "n", SignatureValue := "mb" }

/-- Environment identical to `witEnv` except the envelope decoder reports
`errEnvelope`. -/
def witEnvErr : Env Unit Nat :=
  { witEnv with decodeBody := fun _ => Except.ok errEnvelope }

/-- Witness for C3: at `witEnvErr` every operation surfaces exactly code 5
and message `"boom"` even though a payload string is present. -/
theorem claim_C3_witness :
    ((IssueCToken witEnvErr [] (some ()) none).1 =
      Except.error (WalletError.coded 5 "boom"))
    ∧ ((IssueAsset witEnvErr [] (some ()) none).1 =
      Except.error (WalletError.coded 5 "boom"))
    ∧ ((TransferCToken witEnvErr [] (some ()) none).1 =
      Except.error (WalletError.coded 5 "boom"))
    ∧ ((TransferAsset witEnvErr [] (some ()) none).1 =
      Except.error (WalletError.coded 5 "boom"))
    ∧ ((QueryTransactionLogs witEnvErr [] "tx1" "in").1 =
      Except.error (WalletError.coded 5 "boom"))
    ∧ ((CreatePOE witEnvErr [] (some ()) none).1 =
      Except.error (WalletError.coded 5 "boom"))
    ∧ ((UpdatePOE witEnvErr [] (some ()) none).1 =
      Except.error (WalletError.coded 5 "boom"))
    ∧ ((QueryPOE witEnvErr [] "poe1").1 =
      Except.error (WalletError.coded 5 "boom"))
    ∧ ((UploadPOEFile witEnvErr [] "p1" "f.txt" false).1 =
      Except.error (WalletError.coded 5 "boom")) := by
  refine ⟨?_, ?_, ?_, ?_, ?_, ?_, ?_, ?_, ?_⟩
  · exact claim_C3_coded_error_verbatim.1 Unit Nat witEnvErr [] () none "mb"
      okResp errEnvelope rfl rfl rfl rfl (by decide)
  · exact claim_C3_coded_error_verbatim.2.1 Unit Nat witEnvErr [] () none "mb"
      okResp errEnvelope rfl rfl rfl rfl (by decide)
  · exact claim_C3_coded_error_verbatim.2.2.1 Unit Nat witEnvErr [] () none "mb"
      okResp errEnvelope rfl rfl rfl rfl (by decide)
  · exact claim_C3_coded_error_verbatim.2.2.2.1 Unit Nat witEnvErr [] () none "mb"
      okResp errEnvelope rfl rfl rfl rfl (by decide)
  · exact claim_C3_coded_error_verbatim.2.2.2.2.1 Unit Nat witEnvErr [] "tx1" "in"
      okResp errEnvelope (by decide) rfl rfl rfl (by decide)
  · exact claim_C3_coded_error_verbatim.2.2.2.2.2.1 Unit Nat witEnvErr [] () none none 1 "mb"
      witSign okResp errEnvelope rfl rfl rfl rfl rfl rfl (by decide)
  · exact claim_C3_coded_error_verbatim.2.2.2.2.2.2.1 Unit Nat witEnvErr [] () none none 1 "mb"
      witSign okResp errEnvelope rfl rfl rfl rfl rfl rfl (by decide)
  · exact claim_C3_coded_error_verbatim.2.2.2.2.2.2.2.1 Unit Nat witEnvErr [] "poe1"
      okResp errEnvelope rfl rfl rfl (by decide)
  · exact claim_C3_coded_error_verbatim.2.2.2.2.2.2.2.2 Unit Nat witEnvErr [] "p1" "f.txt"
      false [1, 2, 3] okResp errEnvelope
      (by decide) (by decide) (by simp [witEnvErr, witEnv]) rfl rfl rfl (by decide)

/-- A payload that is present but not a string fails the string assertion
with the error naming the observed type, whatever the payload parser
would do. -/
theorem decodeResponse_payloadType_present {R : Type} (db : String → Except String Response)
    (um : String → Except String R) (resp : HttpResponse) (rb : Response) (v : GoValue)
    (hst : resp.status = 200) (hdb : db resp.body = Except.ok rb)
    (hcode : rb.ErrCode = SuccCode) (hp : rb.Payload = some v)
    (hv : ∀ s, v ≠ GoValue.str s) :
    decodeResponse db um (Except.ok resp) =
      Except.error (WalletError.payloadTypeInvalid (goTypeName (some v))) := by
  have hns : ∀ s, rb.Payload ≠ some (GoValue.str s) := by
    intro s h
    rw [hp] at h
    exact hv s (Option.some.inj h)
  rw [decodeResponse_payloadType db um resp rb hst hdb hcode hns, hp]

/-- An absent payload (Go `nil` interface) fails the string assertion with
the error naming `<nil>`, whatever the payload parser would do. -/
theorem decodeResponse_payloadType_absent {R : Type} (db : String → Except String Response)
    (um : String → Except String R) (resp : HttpResponse) (rb : Response)
    (hst : resp.status = 200) (hdb : db resp.body = Except.ok rb)
    (hcode : rb.ErrCode = SuccCode) (hp : rb.Payload = none) :
    decodeResponse db um (Except.ok resp) =
      Except.error (WalletError.payloadTypeInvalid "<nil>") := by
  have hns : ∀ s, rb.Payload ≠ some (GoValue.str s) := by
    intro s h
    rw [hp] at h
    exact Option.noConfusion h
  rw [decodeResponse_payloadType db um resp rb hst hdb hcode hns, hp]
  rfl

/-- C4: for every operation, when the decoded envelope carries the success
code but its payload field is present and is not a string, the operation
fails with the payload-type error naming the actually observed Go type,
and never returns a typed result built from that payload. -/
theorem claim_C4_payload_type_error :
    (∀ (B R : Type) (env : Env B R) (header : Header) (b : B)
        (sign : Option SignatureBody) (pl : String) (resp : HttpResponse) (rb : Response) (v : GoValue),
      env.marshal b = Except.ok pl →
      env.doRequest (issueCTokenReq header pl sign) = Except.ok resp →
      resp.status = 200 →
      env.decodeBody resp.body = Except.ok rb →
      rb.ErrCode = SuccCode →
      rb.Payload = some v →
      (∀ s, v ≠ GoValue.str s) →
      (IssueCToken env header (some b) sign).1 =
        Except.error (WalletError.payloadTypeInvalid (goTypeName (some v))))
    ∧ (∀ (B R : Type) (env : Env B R) (header : Header) (b : B)
        (sign : Option SignatureBody) (pl : String) (resp : HttpResponse) (rb : Response) (v : GoValue),
      env.marshal b = Except.ok pl →
      env.doRequest (issueAssetReq header pl sign) = Except.ok resp →
      resp.status = 200 →
      env.decodeBody resp.body = Except.ok rb →
      rb.ErrCode = SuccCode →
      rb.Payload = some v →
      (∀ s, v ≠ GoValue.str s) →
      (IssueAsset env header (some b) sign).1 =
        Except.error (WalletError.payloadTypeInvalid (goTypeName (some v))))
    ∧ (∀ (B R : Type) (env : Env B R) (header : Header) (b : B)
        (sign : Option SignatureBody) (pl : String) (resp : HttpResponse) (rb : Response) (v : GoValue),
      env.marshal b = Except.ok pl →
      env.doRequest (transferCTokenReq header pl sign) = Except.ok resp →
      resp.status = 200 →
      env.decodeBody resp.body = Except.ok rb →
      rb.ErrCode = SuccCode →
      rb.Payload = some v →
      (∀ s, v ≠ GoValue.str s) →
      (TransferCToken env header (some b) sign).1 =
        Except.error (WalletError.payloadTypeInvalid (goTypeName (some v))))
    ∧ (∀ (B R : Type) (env : Env B R) (header : Header) (b : B)
        (sign : Option SignatureBody) (pl : String) (resp : HttpResponse) (rb : Response) (v : GoValue),
      env.marshal b = Except.ok pl →
      env.doRequest (transferAssetReq header pl sign) = Except.ok resp →
      resp.status = 200 →
      env.decodeBody resp.body = Except.ok rb →
      rb.ErrCode = SuccCode →
      rb.Payload = some v →
      (∀ s, v ≠ GoValue.str s) →
      (TransferAsset env header (some b) sign).1 =
        Except.error (WalletError.payloadTypeInvalid (goTypeName (some v))))
    ∧ (∀ (B R : Type) (env : Env B R) (header : Header) (id txType : String) (resp : HttpResponse) (rb : Response) (v : GoValue),
      id ≠ "" →
      env.doRequest (queryTxLogsReq header id txType) = Except.ok resp →
      resp.status = 200 →
      env.decodeBody resp.body = Except.ok rb →
      rb.ErrCode = SuccCode →
      rb.Payload = some v →
      (∀ s, v ≠ GoValue.str s) →
      (QueryTransactionLogs env header id txType).1 =
        Except.error (WalletError.payloadTypeInvalid (goTypeName (some v))))
    ∧ (∀ (B R : Type) (env : Env B R) (header : Header) (b : B)
        (signParams sp2 : Option SignatureParam) (n : Nat) (pl : String) (sign : SignatureBody) (resp : HttpResponse) (rb : Response) (v : GoValue),
      resolveSignParams env header signParams = (Except.ok sp2, n) →
      env.marshal b = Except.ok pl →
      env.buildSignatureBody sp2 pl = Except.ok sign →
      env.doRequest (createPOEReq header pl sign) = Except.ok resp →
      resp.status = 200 →
      env.decodeBody resp.body = Except.ok rb →
      rb.ErrCode = SuccCode →
      rb.Payload = some v →
      (∀ s, v ≠ GoValue.str s) →
      (CreatePOE env header (some b) signParams).1 =
        Except.error (WalletError.payloadTypeInvalid (goTypeName (some v))))
    ∧ (∀ (B R : Type) (env : Env B R) (header : Header) (b : B)
        (signParams sp2 : Option SignatureParam) (n : Nat) (pl : String) (sign : SignatureBody) (resp : HttpResponse) (rb : Response) (v : GoValue),
      resolveSignParams env header signParams = (Except.ok sp2, n) →
      env.marshal b = Except.ok pl →
      env.buildSignatureBody sp2 pl = Except.ok sign →
      env.doRequest (updatePOEReq header pl sign) = Except.ok resp →
      resp.status = 200 →
      env.decodeBody resp.body = Except.ok rb →
      rb.ErrCode = SuccCode →
      rb.Payload = some v →
      (∀ s, v ≠ GoValue.str s) →
      (UpdatePOE env header (some b) signParams).1 =
        Except.error (WalletError.payloadTypeInvalid (goTypeName (some v))))
    ∧ (∀ (B R : Type) (env : Env B R) (header : Header) (id : String) (resp : HttpResponse) (rb : Response) (v : GoValue),
      env.doRequest (queryPOEReq header id) = Except.ok resp →
      resp.status = 200 →
      env.decodeBody resp.body = Except.ok rb →
      rb.ErrCode = SuccCode →
      rb.Payload = some v →
      (∀ s, v ≠ GoValue.str s) →
      (QueryPOE env header id).1 =
        Except.error (WalletError.payloadTypeInvalid (goTypeName (some v))))
    ∧ (∀ (B R : Type) (env : Env B R) (header : Header)
        (poeID poeFile : String) (readOnly : Bool) (content : List Nat) (resp : HttpResponse) (rb : Response) (v : GoValue),
      poeID ≠ "" →
      poeFile ≠ "" →
      env.fs poeFile = some content →
      env.doRequest (uploadReq header poeID poeFile readOnly content) = Except.ok resp →
      resp.status = 200 →
      env.decodeBody resp.body = Except.ok rb →
      rb.ErrCode = SuccCode →
      rb.Payload = some v →
      (∀ s, v ≠ GoValue.str s) →
      (UploadPOEFile env header poeID poeFile readOnly).1 =
        Except.error (WalletError.payloadTypeInvalid (goTypeName (some v)))) := by
  refine ⟨?_, ?_, ?_, ?_, ?_, ?_, ?_, ?_, ?_⟩
  · intro B R env header b sign pl resp rb v hm hdo hst hdb hcode hp hv
    rw [IssueCToken_dispatch env header b sign pl hm]
    show decodeResponse env.decodeBody env.unmarshalResult
      (env.doRequest (issueCTokenReq header pl sign)) = _
    rw [hdo]
    exact decodeResponse_payloadType_present env.decodeBody env.unmarshalResult resp rb v hst hdb hcode hp hv
  · intro B R env header b sign pl resp rb v hm hdo hst hdb hcode hp hv
    rw [IssueAsset_dispatch env header b sign pl hm]
    show decodeResponse env.decodeBody env.unmarshalResult
      (env.doRequest (issueAssetReq header pl sign)) = _
    rw [hdo]
    exact decodeResponse_payloadType_present env.decodeBody env.unmarshalResult resp rb v hst hdb hcode hp hv
  · intro B R env header b sign pl resp rb v hm hdo hst hdb hcode hp hv
    rw [TransferCToken_dispatch env header b sign pl hm]
    show decodeResponse env.decodeBody env.unmarshalResult
      (env.doRequest (transferCTokenReq header pl sign)) = _
    rw [hdo]
    exact decodeResponse_payloadType_present env.decodeBody env.unmarshalResult resp rb v hst hdb hcode hp hv
  · intro B R env header b sign pl resp rb v hm hdo hst hdb hcode hp hv
    rw [TransferAsset_dispatch env header b sign pl hm]
    show decodeResponse env.decodeBody env.unmarshalResult
      (env.doRequest (transferAssetReq header pl sign)) = _
    rw [hdo]
    exact decodeResponse_payloadType_present env.decodeBody env.unmarshalResult resp rb v hst hdb hcode hp hv
  · intro B R env header id txType resp rb v hid hdo hst hdb hcode hp hv
    rw [QueryTransactionLogs_dispatch env header id txType hid]
    show decodeResponse env.decodeBody env.unmarshalResult
      (env.doRequest (queryTxLogsReq header id txType)) = _
    rw [hdo]
    exact decodeResponse_payloadType_present env.decodeBody env.unmarshalResult resp rb v hst hdb hcode hp hv
  · intro B R env header b signParams sp2 n pl sign resp rb v hres hm hs hdo hst hdb hcode hp hv
    rw [CreatePOE_dispatch env header b signParams sp2 n pl sign hres hm hs]
    show decodeResponse env.decodeBody env.unmarshalResult
      (env.doRequest (createPOEReq header pl sign)) = _
    rw [hdo]
    exact decodeResponse_payloadType_present env.decodeBody env.unmarshalResult resp rb v hst hdb hcode hp hv
  · intro B R env header b signParams sp2 n pl sign resp rb v hres hm hs hdo hst hdb hcode hp hv
    rw [UpdatePOE_dispatch env header b signParams sp2 n pl sign hres hm hs]
    show decodeResponse env.decodeBody env.unmarshalResult
      (env.doRequest (updatePOEReq header pl sign)) = _
    rw [hdo]
    exact decodeResponse_payloadType_present env.decodeBody env.unmarshalResult resp rb v hst hdb hcode hp hv
  · intro B R env header id resp rb v hdo hst hdb hcode hp hv
    rw [QueryPOE_dispatch env header id]
    show decodeResponse env.decodeBody env.unmarshalResult
      (env.doRequest (queryPOEReq header id)) = _
    rw [hdo]
    exact decodeResponse_payloadType_present env.decodeBody env.unmarshalResult resp rb v hst hdb hcode hp hv
  · intro B R env header poeID poeFile readOnly content resp rb v hid hfile hfs hdo hst hdb hcode hp hv
    rw [UploadPOEFile_dispatch env header poeID poeFile readOnly content hid hfile hfs]
    show decodeResponse env.decodeBody env.unmarshalResult
      (env.doRequest (uploadReq header poeID poeFile readOnly content)) = _
    rw [hdo]
    exact decodeResponse_payloadType_present env.decodeBody env.unmarshalResult resp rb v hst hdb hcode hp hv

/-- C9: for every operation, a success-coded envelope whose payload field
is absent (the `nil` Go interface) fails the string type assertion exactly
like a present non-string payload: the operation returns the
payload-type-invalid error naming `<nil>` and never succeeds with an empty
result. -/
theorem claim_C9_absent_payload :
    (∀ (B R : Type) (env : Env B R) (header : Header) (b : B)
        (sign : Option SignatureBody) (pl : String) (resp : HttpResponse) (rb : Response),
      env.marshal b = Except.ok pl →
      env.doRequest (issueCTokenReq header pl sign) = Except.ok resp →
      resp.status = 200 →
      env.decodeBody resp.body = Except.ok rb →
      rb.ErrCode = SuccCode →
      rb.Payload = none →
      (IssueCToken env header (some b) sign).1 =
        Except.error (WalletError.payloadTypeInvalid "<nil>"))
    ∧ (∀ (B R : Type) (env : Env B R) (header : Header) (b : B)
        (sign : Option SignatureBody) (pl : String) (resp : HttpResponse) (rb : Response),
      env.marshal b = Except.ok pl →
      env.doRequest (issueAssetReq header pl sign) = Except.ok resp →
      resp.status = 200 →
      env.decodeBody resp.body = Except.ok rb →
      rb.ErrCode = SuccCode →
      rb.Payload = none →
      (IssueAsset env header (some b) sign).1 =
        Except.error (WalletError.payloadTypeInvalid "<nil>"))
    ∧ (∀ (B R : Type) (env : Env B R) (header : Header) (b : B)
        (sign : Option SignatureBody) (pl : String) (resp : HttpResponse) (rb : Response),
      env.marshal b = Except.ok pl →
      env.doRequest (transferCTokenReq header pl sign) = Except.ok resp →
      resp.status = 200 →
      env.decodeBody resp.body = Except.ok rb →
      rb.ErrCode = SuccCode →
      rb.Payload = none →
      (TransferCToken env header (some b) sign).1 =
        Except.error (WalletError.payloadTypeInvalid "<nil>"))
    ∧ (∀ (B R : Type) (env : Env B R) (header : Header) (b : B)
        (sign : Option SignatureBody) (pl : String) (resp : HttpResponse) (rb : Response),
      env.marshal b = Except.ok pl →
      env.doRequest (transferAssetReq header pl sign) = Except.ok resp →
      resp.status = 200 →
      env.decodeBody resp.body = Except.ok rb →
      rb.ErrCode = SuccCode →
      rb.Payload = none →
      (TransferAsset env header (some b) sign).1 =
        Except.error (WalletError.payloadTypeInvalid "<nil>"))
    ∧ (∀ (B R : Type) (env : Env B R) (header : Header) (id txType : String) (resp : HttpResponse) (rb : Response),
      id ≠ "" →
      env.doRequest (queryTxLogsReq header id txType) = Except.ok resp →
      resp.status = 200 →
      env.decodeBody resp.body = Except.ok rb →
      rb.ErrCode = SuccCode →
      rb.Payload = none →
      (QueryTransactionLogs env header id txType).1 =
        Except.error (WalletError.payloadTypeInvalid "<nil>"))
    ∧ (∀ (B R : Type) (env : Env B R) (header : Header) (b : B)
        (signParams sp2 : Option SignatureParam) (n : Nat) (pl : String) (sign : SignatureBody) (resp : HttpResponse) (rb : Response),
      resolveSignParams env header signParams = (Except.ok sp2, n) →
      env.marshal b = Except.ok pl →
      env.buildSignatureBody sp2 pl = Except.ok sign →
      env.doRequest (createPOEReq header pl sign) = Except.ok resp →
      resp.status = 200 →
      env.decodeBody resp.body = Except.ok rb →
      rb.ErrCode = SuccCode →
      rb.Payload = none →
      (CreatePOE env header (some b) signParams).1 =
        Except.error (WalletError.payloadTypeInvalid "<nil>"))
    ∧ (∀ (B R : Type) (env : Env B R) (header : Header) (b : B)
        (signParams sp2 : Option SignatureParam) (n : Nat) (pl : String) (sign : SignatureBody) (resp : HttpResponse) (rb : Response),
      resolveSignParams env header signParams = (Except.ok sp2, n) →
      env.marshal b = Except.ok pl →
      env.buildSignatureBody sp2 pl = Except.ok sign →
      env.doRequest (updatePOEReq header pl sign) = Except.ok resp →
      resp.status = 200 →
      env.decodeBody resp.body = Except.ok rb →
      rb.ErrCode = SuccCode →
      rb.Payload = none →
      (UpdatePOE env header (some b) signParams).1 =
        Except.error (WalletError.payloadTypeInvalid "<nil>"))
    ∧ (∀ (B R : Type) (env : Env B R) (header : Header) (id : String) (resp : HttpResponse) (rb : Response),
      env.doRequest (queryPOEReq header id) = Except.ok resp →
      resp.status = 200 →
      env.decodeBody resp.body = Except.ok rb →
      rb.ErrCode = SuccCode →
      rb.Payload = none →
      (QueryPOE env header id).1 =
        Except.error (WalletError.payloadTypeInvalid "<nil>"))
    ∧ (∀ (B R : Type) (env : Env B R) (header : Header)
        (poeID poeFile : String) (readOnly : Bool) (content : List Nat) (resp : HttpResponse) (rb : Response),
      poeID ≠ "" →
      poeFile ≠ "" →
      env.fs poeFile = some content →
      env.doRequest (uploadReq header poeID poeFile readOnly content) = Except.ok resp →
      resp.status = 200 →
      env.decodeBody resp.body = Except.ok rb →
      rb.ErrCode = SuccCode →
      rb.Payload = none →
      (UploadPOEFile env header poeID poeFile readOnly).1 =
        Except.error (WalletError.payloadTypeInvalid "<nil>")) := by
  refine ⟨?_, ?_, ?_, ?_, ?_, ?_, ?_, ?_, ?_⟩
  · intro B R env header b sign pl resp rb hm hdo hst hdb hcode hp
    rw [IssueCToken_dispatch env header b sign pl hm]
    show decodeResponse env.decodeBody env.unmarshalResult
      (env.doRequest (issueCTokenReq header pl sign)) = _
    rw [hdo]
    exact decodeResponse_payloadType_absent env.decodeBody env.unmarshalResult resp rb hst hdb hcode hp
  · intro B R env header b sign pl resp rb hm hdo hst hdb hcode hp
    rw [IssueAsset_dispatch env header b sign pl hm]
    show decodeResponse env.decodeBody env.unmarshalResult
      (env.doRequest (issueAssetReq header pl sign)) = _
    rw [hdo]
    exact decodeResponse_payloadType_absent env.decodeBody env.unmarshalResult resp rb hst hdb hcode hp
  · intro B R env header b sign pl resp rb hm hdo hst hdb hcode hp
    rw [TransferCToken_dispatch env header b sign pl hm]
    show decodeResponse env.decodeBody env.unmarshalResult
      (env.doRequest (transferCTokenReq header pl sign)) = _
    rw [hdo]
    exact decodeResponse_payloadType_absent env.decodeBody env.unmarshalResult resp rb hst hdb hcode hp
  · intro B R env header b sign pl resp rb hm hdo hst hdb hcode hp
    rw [TransferAsset_dispatch env header b sign pl hm]
    show decodeResponse env.decodeBody env.unmarshalResult
      (env.doRequest (transferAssetReq header pl sign)) = _
    rw [hdo]
    exact decodeResponse_payloadType_absent env.decodeBody env.unmarshalResult resp rb hst hdb hcode hp
  · intro B R env header id txType resp rb hid hdo hst hdb hcode hp
    rw [QueryTransactionLogs_dispatch env header id txType hid]
    show decodeResponse env.decodeBody env.unmarshalResult
      (env.doRequest (queryTxLogsReq header id txType)) = _
    rw [hdo]
    exact decodeResponse_payloadType_absent env.decodeBody env.unmarshalResult resp rb hst hdb hcode hp
  · intro B R env header b signParams sp2 n pl sign resp rb hres hm hs hdo hst hdb hcode hp
    rw [CreatePOE_dispatch env header b signParams sp2 n pl sign hres hm hs]
    show decodeResponse env.decodeBody env.unmarshalResult
      (env.doRequest (createPOEReq header pl sign)) = _
    rw [hdo]
    exact decodeResponse_payloadType_absent env.decodeBody env.unmarshalResult resp rb hst hdb hcode hp
  · intro B R env header b signParams sp2 n pl sign resp rb hres hm hs hdo hst hdb hcode hp
    rw [UpdatePOE_dispatch env header b signParams sp2 n pl sign hres hm hs]
    show decodeResponse env.decodeBody env.unmarshalResult
      (env.doRequest (updatePOEReq header pl sign)) = _
    rw [hdo]
    exact decodeResponse_payloadType_absent env.decodeBody env.unmarshalResult resp rb hst hdb hcode hp
  · intro B R env header id resp rb hdo hst hdb hcode hp
    rw [QueryPOE_dispatch env header id]
    show decodeResponse env.decodeBody env.unmarshalResult
      (env.doRequest (queryPOEReq header id)) = _
    rw [hdo]
    exact decodeResponse_payloadType_absent env.decodeBody env.unmarshalResult resp rb hst hdb hcode hp
  · intro B R env header poeID poeFile readOnly content resp rb hid hfile hfs hdo hst hdb hcode hp
    rw [UploadPOEFile_dispatch env header poeID poeFile readOnly content hid hfile hfs]
    show decodeResponse env.decodeBody env.unmarshalResult
      (env.doRequest (uploadReq header poeID poeFile readOnly content)) = _
    rw [hdo]
    exact decodeResponse_payloadType_absent env.decodeBody env.unmarshalResult resp rb hst hdb hcode hp

/-- A success-coded envelope whose payload is present but is a JSON number
(Go `float64`), not a string. -/
def numEnvelope : Response :=
  { ErrCode := 0, ErrMessage := "", Payload := some (GoValue.num 3) }

/-- Environment identical to `witEnv` except the envelope decoder reports
`numEnvelope`. -/
def witEnvNum : Env Unit Nat :=
  { witEnv with decodeBody := fun _ => Except.ok numEnvelope }

/-- A success-coded envelope with an absent payload field. -/
def nilEnvelope : Response :=
  { ErrCode := 0, ErrMessage := "", Payload := none }

/-- Environment identical to `witEnv` except the envelope decoder reports
`nilEnvelope`. -/
def witEnvNil : Env Unit Nat :=
  { witEnv with decodeBody := fun _ => Except.ok nilEnvelope }

/-- Witness for C4: at `witEnvNum` every operation fails with the
payload-type error naming `float64`. -/
theorem claim_C4_witness :
    ((IssueCToken witEnvNum [] (some ()) none).1 =
      Except.error (WalletError.payloadTypeInvalid "float64"))
    ∧ ((IssueAsset witEnvNum [] (some ()) none).1 =
      Except.error (WalletError.payloadTypeInvalid "float64"))
    ∧ ((TransferCToken witEnvNum [] (some ()) none).1 =
      Except.error (WalletError.payloadTypeInvalid "float64"))
    ∧ ((TransferAsset witEnvNum [] (some ()) none).1 =
      Except.error (WalletError.payloadTypeInvalid "float64"))
    ∧ ((QueryTransactionLogs witEnvNum [] "tx1" "in").1 =
      Except.error (WalletError.payloadTypeInvalid "float64"))
    ∧ ((CreatePOE witEnvNum [] (some ()) none).1 =
      Except.error (WalletError.payloadTypeInvalid "float64"))
    ∧ ((UpdatePOE witEnvNum [] (some ()) none).1 =
      Except.error (WalletError.payloadTypeInvalid "float64"))
    ∧ ((QueryPOE witEnvNum [] "poe1").1 =
      Except.error (WalletError.payloadTypeInvalid "float64"))
    ∧ ((UploadPOEFile witEnvNum [] "p1" "f.txt" false).1 =
      Except.error (WalletError.payloadTypeInvalid "float64")) := by
  refine ⟨?_, ?_, ?_, ?_, ?_, ?_, ?_, ?_, ?_⟩
  · exact claim_C4_payload_type_error.1 Unit Nat witEnvNum [] () none "mb"
      okResp numEnvelope (GoValue.num 3) rfl rfl rfl rfl rfl rfl (fun s h => nomatch h)
  · exact claim_C4_payload_type_error.2.1 Unit Nat witEnvNum [] () none "mb"
      okResp numEnvelope (GoValue.num 3) rfl rfl rfl rfl rfl rfl (fun s h => nomatch h)
  · exact claim_C4_payload_type_error.2.2.1 Unit Nat witEnvNum [] () none "mb"
      okResp numEnvelope (GoValue.num 3) rfl rfl rfl rfl rfl rfl (fun s h => nomatch h)
  · exact claim_C4_payload_type_error.2.2.2.1 Unit Nat witEnvNum [] () none "mb"
      okResp numEnvelope (GoValue.num 3) rfl rfl rfl rfl rfl rfl (fun s h => nomatch h)
  · exact claim_C4_payload_type_error.2.2.2.2.1 Unit Nat witEnvNum [] "tx1" "in"
      okResp numEnvelope (GoValue.num 3) (by decide) rfl rfl rfl rfl rfl (fun s h => nomatch h)
  · exact claim_C4_payload_type_error.2.2.2.2.2.1 Unit Nat witEnvNum [] () none none 1 "mb"
      witSign okResp numEnvelope (GoValue.num 3) rfl rfl rfl rfl rfl rfl rfl rfl
      (fun s h => nomatch h)
  · exact claim_C4_payload_type_error.2.2.2.2.2.2.1 Unit Nat witEnvNum [] () none none 1 "mb"
      witSign okResp numEnvelope (GoValue.num 3) rfl rfl rfl rfl rfl rfl rfl rfl
      (fun s h => nomatch h)
  · exact claim_C4_payload_type_error.2.2.2.2.2.2.2.1 Unit Nat witEnvNum [] "poe1"
      okResp numEnvelope (GoValue.num 3) rfl rfl rfl rfl rfl (fun s h => nomatch h)
  · exact claim_C4_payload_type_error.2.2.2.2.2.2.2.2 Unit Nat witEnvNum [] "p1" "f.txt"
      false [1, 2, 3] okResp numEnvelope (GoValue.num 3)
      (by decide) (by decide) (by simp [witEnvNum, witEnv]) rfl rfl rfl rfl rfl
      (fun s h => nomatch h)

/-- Witness for C9: at `witEnvNil` every operation fails with the
payload-type error naming `<nil>`. -/
theorem claim_C9_witness :
    ((IssueCToken witEnvNil [] (some ()) none).1 =
      Except.error (WalletError.payloadTypeInvalid "<nil>"))
    ∧ ((IssueAsset witEnvNil [] (some ()) none).1 =
      Except.error (WalletError.payloadTypeInvalid "<nil>"))
    ∧ ((TransferCToken witEnvNil [] (some ()) none).1 =
      Except.error (WalletError.payloadTypeInvalid "<nil>"))
    ∧ ((TransferAsset witEnvNil [] (some ()) none).1 =
      Except.error (WalletError.payloadTypeInvalid "<nil>"))
    ∧ ((QueryTransactionLogs witEnvNil [] "tx1" "in").1 =
      Except.error (WalletError.payloadTypeInvalid "<nil>"))
    ∧ ((CreatePOE witEnvNil [] (some ()) none).1 =
      Except.error (WalletError.payloadTypeInvalid "<nil>"))
    ∧ ((UpdatePOE witEnvNil [] (some ()) none).1 =
      Except.error (WalletError.payloadTypeInvalid "<nil>"))
    ∧ ((QueryPOE witEnvNil [] "poe1").1 =
      Except.error (WalletError.payloadTypeInvalid "<nil>"))
    ∧ ((UploadPOEFile witEnvNil [] "p1" "f.txt" false).1 =
      Except.error (WalletError.payloadTypeInvalid "<nil>")) := by
  refine ⟨?_, ?_, ?_, ?_, ?_, ?_, ?_, ?_, ?_⟩
  · exact claim_C9_absent_payload.1 Unit Nat witEnvNil [] () none "mb"
      okResp nilEnvelope rfl rfl rfl rfl rfl rfl
  · exact claim_C9_absent_payload.2.1 Unit Nat witEnvNil [] () none "mb"
      okResp nilEnvelope rfl rfl rfl rfl rfl rfl
  · exact claim_C9_absent_payload.2.2.1 Unit Nat witEnvNil [] () none "mb"
      okResp nilEnvelope rfl rfl rfl rfl rfl rfl
  · exact claim_C9_absent_payload.2.2.2.1 Unit Nat witEnvNil [] () none "mb"
      okResp nilEnvelope rfl rfl rfl rfl rfl rfl
  · exact claim_C9_absent_payload.2.2.2.2.1 Unit Nat witEnvNil [] "tx1" "in"
      okResp nilEnvelope (by decide) rfl rfl rfl rfl rfl
  · exact claim_C9_absent_payload.2.2.2.2.2.1 Unit Nat witEnvNil [] () none none 1 "mb"
      witSign okResp nilEnvelope rfl rfl rfl rfl rfl rfl rfl rfl
  · exact claim_C9_absent_payload.2.2.2.2.2.2.1 Unit Nat witEnvNil [] () none none 1 "mb"
      witSign okResp nilEnvelope rfl rfl rfl rfl rfl rfl rfl rfl
  · exact claim_C9_absent_payload.2.2.2.2.2.2.2.1 Unit Nat witEnvNil [] "poe1"
      okResp nilEnvelope rfl rfl rfl rfl rfl
  · exact claim_C9_absent_payload.2.2.2.2.2.2.2.2 Unit Nat witEnvNil [] "p1" "f.txt"
      false [1, 2, 3] okResp nilEnvelope
      (by decide) (by decide) (by simp [witEnvNil, witEnv]) rfl rfl rfl rfl rfl

/-- C5 counterexample: the claim states that every query operation called
with an empty required identifier fails with a precondition error before
any request is constructed, with zero network calls.  `QueryPOE` refutes
it: called with the empty id it dispatches one request (the `sent` trace
is non-empty, carrying the id-less query), and returns the transport's
decoded result rather than a precondition error. -/
theorem claim_C5_counterexample :
    (QueryPOE witEnv [] "").2.sent = [queryPOEReq [] ""]
    ∧ (QueryPOE witEnv [] "").2.sent.length = 1
    ∧ (QueryPOE witEnv [] "").1 = Except.ok 1 := by
  exact ⟨rfl, rfl, rfl⟩

/-- C5 amended: `QueryTransactionLogs` called with an empty id fails with
the precondition error and dispatches nothing, while `QueryPOE` performs
no empty-id validation: it dispatches its request even when the id is
empty. -/
theorem claim_C5_amended :
    (∀ (B R : Type) (env : Env B R) (header : Header) (txType : String),
      (QueryTransactionLogs env header "" txType).1 =
        Except.error (WalletError.precondition "request id invalid")
      ∧ (QueryTransactionLogs env header "" txType).2.sent = [])
    ∧ (∀ (B R : Type) (env : Env B R) (header : Header),
      (QueryPOE env header "").2.sent = [queryPOEReq header ""]) := by
  constructor
  · intro B R env header txType
    constructor
    · simp [QueryTransactionLogs, OpTrace.empty]
    · simp [QueryTransactionLogs, OpTrace.empty]
  · intro B R env header
    rw [QueryPOE_dispatch env header ""]

/-- C6: `UploadPOEFile` called with a non-empty poeID and a non-empty
poeFile path naming a file that does not exist returns the local
file-open error and never invokes the transport send: its trace of
`DoRequest` calls is empty. -/
theorem claim_C6_missing_file :
    ∀ (B R : Type) (env : Env B R) (header : Header) (poeID poeFile : String)
      (readOnly : Bool),
      poeID ≠ "" → poeFile ≠ "" → env.fs poeFile = none →
      (UploadPOEFile env header poeID poeFile readOnly).1 =
        Except.error (WalletError.fileOpen poeFile)
      ∧ (UploadPOEFile env header poeID poeFile readOnly).2.sent = [] := by
  intro B R env header poeID poeFile readOnly hid hfile hfs
  constructor
  · simp [UploadPOEFile, hid, hfile, hfs, OpTrace.empty]
  · simp [UploadPOEFile, hid, hfile, hfs, OpTrace.empty]

/-- Witness for C6: at `witEnv` the path `"missing.txt"` does not exist,
the upload fails with the file-open error, and nothing is sent. -/
theorem claim_C6_witness :
    (UploadPOEFile witEnv [] "p1" "missing.txt" true).1 =
      Except.error (WalletError.fileOpen "missing.txt")
    ∧ (UploadPOEFile witEnv [] "p1" "missing.txt" true).2.sent = [] :=
  claim_C6_missing_file Unit Nat witEnv [] "p1" "missing.txt" true
    (by decide) (by decide) (by simp [witEnv])

/-- C7: `UploadPOEFile` writes the POE id field first, then the read-only
flag string-encoded by `strconv.FormatBool` as `"true"`/`"false"`, then
the file content part last, and closes the multipart writer before the
request is dispatched: every dispatched body is exactly that item list
terminated by the closing boundary, so the dispatched body always carries
the terminating boundary as its last item. -/
theorem claim_C7_multipart_order :
    (∀ (B R : Type) (env : Env B R) (header : Header) (poeID poeFile : String)
        (readOnly : Bool) (content : List Nat),
      poeID ≠ "" → poeFile ≠ "" → env.fs poeFile = some content →
      (UploadPOEFile env header poeID poeFile readOnly).2.sent =
        [uploadReq header poeID poeFile readOnly content]
      ∧ (uploadReq header poeID poeFile readOnly content).body =
        RequestBody.multipart
          [MultipartItem.field OffchainPOEID poeID,
           MultipartItem.field OffchainReadOnly (formatBool readOnly),
           MultipartItem.filePart OffchainPOEFile poeFile content,
           MultipartItem.closingBoundary])
    ∧ (∀ (B R : Type) (env : Env B R) (header : Header) (poeID poeFile : String)
        (readOnly : Bool) (content : List Nat),
      poeID ≠ "" → poeFile ≠ "" → env.fs poeFile = some content →
      ∀ r ∈ (UploadPOEFile env header poeID poeFile readOnly).2.sent,
        ∃ items, r.body = RequestBody.multipart items
          ∧ items.getLast? = some MultipartItem.closingBoundary)
    ∧ formatBool true = "true" ∧ formatBool false = "false" := by
  refine ⟨?_, ?_, rfl, rfl⟩
  · intro B R env header poeID poeFile readOnly content hid hfile hfs
    rw [UploadPOEFile_dispatch env header poeID poeFile readOnly content hid hfile hfs]
    exact ⟨rfl, rfl⟩
  · intro B R env header poeID poeFile readOnly content hid hfile hfs r hr
    rw [UploadPOEFile_dispatch env header poeID poeFile readOnly content hid hfile hfs] at hr
    simp only [List.mem_singleton] at hr
    subst hr
    exact ⟨uploadBody poeID poeFile readOnly content, rfl, rfl⟩

/-- Witness for C7: the upload at `witEnv` dispatches exactly the
four-item multipart body ending in the closing boundary. -/
theorem claim_C7_witness :
    (UploadPOEFile witEnv [] "p1" "f.txt" true).2.sent =
      [uploadReq [] "p1" "f.txt" true [1, 2, 3]]
    ∧ (uploadReq [] "p1" "f.txt" true [1, 2, 3]).body =
      RequestBody.multipart
        [MultipartItem.field OffchainPOEID "p1",
         MultipartItem.field OffchainReadOnly (formatBool true),
         MultipartItem.filePart OffchainPOEFile "f.txt" [1, 2, 3],
         MultipartItem.closingBoundary] :=
  claim_C7_multipart_order.1 Unit Nat witEnv [] "p1" "f.txt" true [1, 2, 3]
    (by decide) (by decide) (by simp [witEnv])

/-- The payload strings carried by the request envelopes an operation
actually dispatched, in dispatch order. -/
def envelopePayloads (t : OpTrace) : List String :=
  t.sent.filterMap (fun r =>
    match r.body with
    | RequestBody.envelope e => some e.Payload
    | _ => none)

/-- C2: for every Sign-variant operation and for CreatePOE and UpdatePOE,
the byte sequences passed to `buildSignatureBody` coincide exactly with
the payload strings carried by the dispatched request envelopes: whenever
anything is sent, the signed bytes and the transmitted bytes are
byte-identical (the repeated `json.Marshal` of the same value in the
delegated call is deterministic, hence does not change them). -/
theorem claim_C2_signed_bytes_identical :
    (∀ (B R : Type) (env : Env B R) (header : Header) (body : Option B)
        (signParams : Option SignatureParam),
      (IssueCTokenSign env header body signParams).2.sent = []
      ∨ envelopePayloads (IssueCTokenSign env header body signParams).2 =
          (IssueCTokenSign env header body signParams).2.signedOver)
    ∧ (∀ (B R : Type) (env : Env B R) (header : Header) (body : Option B)
        (signParams : Option SignatureParam),
      (IssueAssetSign env header body signParams).2.sent = []
      ∨ envelopePayloads (IssueAssetSign env header body signParams).2 =
          (IssueAssetSign env header body signParams).2.signedOver)
    ∧ (∀ (B R : Type) (env : Env B R) (header : Header) (body : Option B)
        (signParams : Option SignatureParam),
      (TransferCTokenSign env header body signParams).2.sent = []
      ∨ envelopePayloads (TransferCTokenSign env header body signParams).2 =
          (TransferCTokenSign env header body signParams).2.signedOver)
    ∧ (∀ (B R : Type) (env : Env B R) (header : Header) (body : Option B)
        (signParams : Option SignatureParam),
      (TransferAssetSign env header body signParams).2.sent = []
      ∨ envelopePayloads (TransferAssetSign env header body signParams).2 =
          (TransferAssetSign env header body signParams).2.signedOver)
    ∧ (∀ (B R : Type) (env : Env B R) (header : Header) (body : Option B)
        (signParams : Option SignatureParam),
      (CreatePOE env header body signParams).2.sent = []
      ∨ envelopePayloads (CreatePOE env header body signParams).2 =
          (CreatePOE env header body signParams).2.signedOver)
    ∧ (∀ (B R : Type) (env : Env B R) (header : Header) (body : Option B)
        (signParams : Option SignatureParam),
      (UpdatePOE env header body signParams).2.sent = []
      ∨ envelopePayloads (UpdatePOE env header body signParams).2 =
          (UpdatePOE env header body signParams).2.signedOver) := by
  refine ⟨?_, ?_, ?_, ?_, ?_, ?_⟩
  · intro B R env header body signParams
    match body with
    | none => exact Or.inl rfl
    | some b =>
      rcases hm : env.marshal b with e | pl
      · left
        simp [IssueCTokenSign, hm, OpTrace.empty]
      · rcases hs : env.buildSignatureBody signParams pl with e | sign
        · left
          simp [IssueCTokenSign, hm, hs]
        · right
          simp [IssueCTokenSign, hm, hs,
            IssueCToken_dispatch env header b (some sign) pl hm,
            envelopePayloads, issueCTokenReq, Request.setBody, Request.setHeaders, newRequest]
  · intro B R env header body signParams
    match body with
    | none => exact Or.inl rfl
    | some b =>
      rcases hm : env.marshal b with e | pl
      · left
        simp [IssueAssetSign, hm, OpTrace.empty]
      · rcases hs : env.buildSignatureBody signParams pl with e | sign
        · left
          simp [IssueAssetSign, hm, hs]
        · right
          simp [IssueAssetSign, hm, hs,
            IssueAsset_dispatch env header b (some sign) pl hm,
            envelopePayloads, issueAssetReq, Request.setBody, Request.setHeaders, newRequest]
  · intro B R env header body signParams
    match body with
    | none => exact Or.inl rfl
    | some b =>
      rcases hm : env.marshal b with e | pl
      · left
        simp [TransferCTokenSign, hm, OpTrace.empty]
      · rcases hs : env.buildSignatureBody signParams pl with e | sign
        · left
          simp [TransferCTokenSign, hm, hs]
        · right
          simp [TransferCTokenSign, hm, hs,
            TransferCToken_dispatch env header b (some sign) pl hm,
            envelopePayloads, transferCTokenReq, Request.setBody, Request.setHeaders, newRequest]
  · intro B R env header body signParams
    match body with
    | none => exact Or.inl rfl
    | some b =>
      rcases hm : env.marshal b with e | pl
      · left
        simp [TransferAssetSign, hm, OpTrace.empty]
      · rcases hs : env.buildSignatureBody signParams pl with e | sign
        · left
          simp [TransferAssetSign, hm, hs]
        · right
          simp [TransferAssetSign, hm, hs,
            TransferAsset_dispatch env header b (some sign) pl hm,
            envelopePayloads, transferAssetReq, Request.setBody, Request.setHeaders, newRequest]
  · intro B R env header body signParams
    match body with
    | none => exact Or.inl rfl
    | some b =>
      rcases hr : resolveSignParams env header signParams with ⟨res, n⟩
      rcases res with e | sp2
      · left
        simp [CreatePOE, hr]
      · rcases hm : env.marshal b with e | pl
        · left
          simp [CreatePOE, hr, hm]
        · rcases hs : env.buildSignatureBody sp2 pl with e | sign
          · left
            simp [CreatePOE, hr, hm, hs]
          · right
            simp [CreatePOE, hr, hm, hs, envelopePayloads, createPOEReq,
              Request.setBody, Request.setHeaders, newRequest]
  · intro B R env header body signParams
    match body with
    | none => exact Or.inl rfl
    | some b =>
      rcases hr : resolveSignParams env header signParams with ⟨res, n⟩
      rcases res with e | sp2
      · left
        simp [UpdatePOE, hr]
      · rcases hm : env.marshal b with e | pl
        · left
          simp [UpdatePOE, hr, hm]
        · rcases hs : env.buildSignatureBody sp2 pl with e | sign
          · left
            simp [UpdatePOE, hr, hm, hs]
          · right
            simp [UpdatePOE, hr, hm, hs, envelopePayloads, updatePOEReq,
              Request.setBody, Request.setHeaders, newRequest]

/-- C10: for every signing operation, a failure of the key-custody lookup
or of the signature construction is returned before any HTTP request is
built or dispatched: the trace of `DoRequest` calls is empty. -/
theorem claim_C10_signing_failure_no_dispatch :
    (∀ (B R : Type) (env : Env B R) (header : Header) (b : B)
        (signParams : Option SignatureParam) (pl e : String),
      env.marshal b = Except.ok pl →
      env.buildSignatureBody signParams pl = Except.error e →
      (IssueCTokenSign env header (some b) signParams).1 =
        Except.error (WalletError.signing e)
      ∧ (IssueCTokenSign env header (some b) signParams).2.sent = [])
    ∧ (∀ (B R : Type) (env : Env B R) (header : Header) (b : B)
        (signParams : Option SignatureParam) (pl e : String),
      env.marshal b = Except.ok pl →
      env.buildSignatureBody signParams pl = Except.error e →
      (IssueAssetSign env header (some b) signParams).1 =
        Except.error (WalletError.signing e)
      ∧ (IssueAssetSign env header (some b) signParams).2.sent = [])
    ∧ (∀ (B R : Type) (env : Env B R) (header : Header) (b : B)
        (signParams : Option SignatureParam) (pl e : String),
      env.marshal b = Except.ok pl →
      env.buildSignatureBody signParams pl = Except.error e →
      (TransferCTokenSign env header (some b) signParams).1 =
        Except.error (WalletError.signing e)
      ∧ (TransferCTokenSign env header (some b) signParams).2.sent = [])
    ∧ (∀ (B R : Type) (env : Env B R) (header : Header) (b : B)
        (signParams : Option SignatureParam) (pl e : String),
      env.marshal b = Except.ok pl →
      env.buildSignatureBody signParams pl = Except.error e →
      (TransferAssetSign env header (some b) signParams).1 =
        Except.error (WalletError.signing e)
      ∧ (TransferAssetSign env header (some b) signParams).2.sent = [])
    ∧ (∀ (B R : Type) (env : Env B R) (header : Header) (b : B)
        (signParams : Option SignatureParam) (e : String) (n : Nat),
      resolveSignParams env header signParams = (Except.error e, n) →
      (CreatePOE env header (some b) signParams).1 =
        Except.error (WalletError.custody e)
      ∧ (CreatePOE env header (some b) signParams).2.sent = [])
    ∧ (∀ (B R : Type) (env : Env B R) (header : Header) (b : B)
        (signParams sp2 : Option SignatureParam) (n : Nat) (pl e : String),
      resolveSignParams env header signParams = (Except.ok sp2, n) →
      env.marshal b = Except.ok pl →
      env.buildSignatureBody sp2 pl = Except.error e →
      (CreatePOE env header (some b) signParams).1 =
        Except.error (WalletError.signing e)
      ∧ (CreatePOE env header (some b) signParams).2.sent = [])
    ∧ (∀ (B R : Type) (env : Env B R) (header : Header) (b : B)
        (signParams : Option SignatureParam) (e : String) (n : Nat),
      resolveSignParams env header signParams = (Except.error e, n) →
      (UpdatePOE env header (some b) signParams).1 =
        Except.error (WalletError.custody e)
      ∧ (UpdatePOE env header (some b) signParams).2.sent = [])
    ∧ (∀ (B R : Type) (env : Env B R) (header : Header) (b : B)
        (signParams sp2 : Option SignatureParam) (n : Nat) (pl e : String),
      resolveSignParams env header signParams = (Except.ok sp2, n) →
      env.marshal b = Except.ok pl →
      env.buildSignatureBody sp2 pl = Except.error e →
      (UpdatePOE env header (some b) signParams).1 =
        Except.error (WalletError.signing e)
      ∧ (UpdatePOE env header (some b) signParams).2.sent = []) := by
  refine ⟨?_, ?_, ?_, ?_, ?_, ?_, ?_, ?_⟩
  · intro B R env header b signParams pl e hm hs
    constructor
    · simp [IssueCTokenSign, hm, hs]
    · simp [IssueCTokenSign, hm, hs]
  · intro B R env header b signParams pl e hm hs
    constructor
    · simp [IssueAssetSign, hm, hs]
    · simp [IssueAssetSign, hm, hs]
  · intro B R env header b signParams pl e hm hs
    constructor
    · simp [TransferCTokenSign, hm, hs]
    · simp [TransferCTokenSign, hm, hs]
  · intro B R env header b signParams pl e hm hs
    constructor
    · simp [TransferAssetSign, hm, hs]
    · simp [TransferAssetSign, hm, hs]
  · intro B R env header b signParams e n hr
    constructor
    · simp [CreatePOE, hr]
    · simp [CreatePOE, hr]
  · intro B R env header b signParams sp2 n pl e hr hm hs
    constructor
    · simp [CreatePOE, hr, hm, hs]
    · simp [CreatePOE, hr, hm, hs]
  · intro B R env header b signParams e n hr
    constructor
    · simp [UpdatePOE, hr]
    · simp [UpdatePOE, hr]
  · intro B R env header b signParams sp2 n pl e hr hm hs
    constructor
    · simp [UpdatePOE, hr, hm, hs]
    · simp [UpdatePOE, hr, hm, hs]

/-- Environment identical to `witEnv` except signing always fails. -/
def witEnvSignFail : Env Unit Nat :=
  { witEnv with buildSignatureBody := fun _ _ => Except.error "bad key" }

/-- Environment identical to `witEnv` except the key-custody lookup always
fails. -/
def witEnvCustodyFail : Env Unit Nat :=
  { witEnv with queryPrivateKey := fun _ _ => Except.error "not found" }

/-- Witness for C10: with a failing signer or a failing custody lookup,
each signing operation surfaces the failure and dispatches nothing. -/
theorem claim_C10_witness :
    ((IssueCTokenSign witEnvSignFail [] (some ()) none).1 =
      Except.error (WalletError.signing "bad key")
      ∧ (IssueCTokenSign witEnvSignFail [] (some ()) none).2.sent = [])
    ∧ ((IssueAssetSign witEnvSignFail [] (some ()) none).1 =
      Except.error (WalletError.signing "bad key")
      ∧ (IssueAssetSign witEnvSignFail [] (some ()) none).2.sent = [])
    ∧ ((TransferCTokenSign witEnvSignFail [] (some ()) none).1 =
      Except.error (WalletError.signing "bad key")
      ∧ (TransferCTokenSign witEnvSignFail [] (some ()) none).2.sent = [])
    ∧ ((TransferAssetSign witEnvSignFail [] (some ()) none).1 =
      Except.error (WalletError.signing "bad key")
      ∧ (TransferAssetSign witEnvSignFail [] (some ()) none).2.sent = [])
    ∧ ((CreatePOE witEnvCustodyFail [] (some ()) none).1 =
      Except.error (WalletError.custody "not found")
      ∧ (CreatePOE witEnvCustodyFail [] (some ()) none).2.sent = [])
    ∧ ((CreatePOE witEnvSignFail [] (some ()) none).1 =
      Except.error (WalletError.signing "bad key")
      ∧ (CreatePOE witEnvSignFail [] (some ()) none).2.sent = [])
    ∧ ((UpdatePOE witEnvCustodyFail [] (some ()) none).1 =
      Except.error (WalletError.custody "not found")
      ∧ (UpdatePOE witEnvCustodyFail [] (some ()) none).2.sent = [])
    ∧ ((UpdatePOE witEnvSignFail [] (some ()) none).1 =
      Except.error (WalletError.signing "bad key")
      ∧ (UpdatePOE witEnvSignFail [] (some ()) none).2.sent = []) := by
  refine ⟨?_, ?_, ?_, ?_, ?_, ?_, ?_, ?_⟩
  · exact claim_C10_signing_failure_no_dispatch.1 Unit Nat witEnvSignFail [] () none
      "mb" "bad key" rfl rfl
  · exact claim_C10_signing_failure_no_dispatch.2.1 Unit Nat witEnvSignFail [] () none
      "mb" "bad key" rfl rfl
  · exact claim_C10_signing_failure_no_dispatch.2.2.1 Unit Nat witEnvSignFail [] () none
      "mb" "bad key" rfl rfl
  · exact claim_C10_signing_failure_no_dispatch.2.2.2.1 Unit Nat witEnvSignFail [] () none
      "mb" "bad key" rfl rfl
  · exact claim_C10_signing_failure_no_dispatch.2.2.2.2.1 Unit Nat witEnvCustodyFail [] ()
      none "not found" 1 rfl
  · exact claim_C10_signing_failure_no_dispatch.2.2.2.2.2.1 Unit Nat witEnvSignFail [] ()
      none none 1 "mb" "bad key" rfl rfl rfl
  · exact claim_C10_signing_failure_no_dispatch.2.2.2.2.2.2.1 Unit Nat witEnvCustodyFail []
      () none "not found" 1 rfl
  · exact claim_C10_signing_failure_no_dispatch.2.2.2.2.2.2.2 Unit Nat witEnvSignFail [] ()
      none none 1 "mb" "bad key" rfl rfl rfl

/-- C8: two-run noninterference in the request header.  For every
operation, if the transport answers with the same raw response whatever
request it receives, and the custody lookup does not depend on the header
it is handed, then running the operation with any header (in particular
with `Bc-Invoke-Mode: sync` set) and with any other header (in particular
without it) produces identical typed results or identical errors: the
header is passed through into the request uninterpreted and no decoding
branch reads it. -/
theorem claim_C8_header_noninterference :
    ∀ (B R : Type) (env : Env B R),
      (∀ r1 r2, env.doRequest r1 = env.doRequest r2) →
      (∀ g1 g2 p, env.queryPrivateKey g1 p = env.queryPrivateKey g2 p) →
      ∀ (h1 h2 : Header),
        (∀ (body : Option B) (sign : Option SignatureBody),
          (IssueCToken env h1 body sign).1 = (IssueCToken env h2 body sign).1)
        ∧ (∀ (body : Option B) (sign : Option SignatureBody),
          (IssueAsset env h1 body sign).1 = (IssueAsset env h2 body sign).1)
        ∧ (∀ (body : Option B) (sign : Option SignatureBody),
          (TransferCToken env h1 body sign).1 = (TransferCToken env h2 body sign).1)
        ∧ (∀ (body : Option B) (sign : Option SignatureBody),
          (TransferAsset env h1 body sign).1 = (TransferAsset env h2 body sign).1)
        ∧ (∀ (id txType : String),
          (QueryTransactionLogs env h1 id txType).1 =
            (QueryTransactionLogs env h2 id txType).1)
        ∧ (∀ (body : Option B) (signParams : Option SignatureParam),
          (CreatePOE env h1 body signParams).1 = (CreatePOE env h2 body signParams).1)
        ∧ (∀ (body : Option B) (signParams : Option SignatureParam),
          (UpdatePOE env h1 body signParams).1 = (UpdatePOE env h2 body signParams).1)
        ∧ (∀ (id : String),
          (QueryPOE env h1 id).1 = (QueryPOE env h2 id).1)
        ∧ (∀ (poeID poeFile : String) (readOnly : Bool),
          (UploadPOEFile env h1 poeID poeFile readOnly).1 =
            (UploadPOEFile env h2 poeID poeFile readOnly).1)
        ∧ (∀ (body : Option B) (signParams : Option SignatureParam),
          (IssueCTokenSign env h1 body signParams).1 =
            (IssueCTokenSign env h2 body signParams).1)
        ∧ (∀ (body : Option B) (signParams : Option SignatureParam),
          (IssueAssetSign env h1 body signParams).1 =
            (IssueAssetSign env h2 body signParams).1)
        ∧ (∀ (body : Option B) (signParams : Option SignatureParam),
          (TransferCTokenSign env h1 body signParams).1 =
            (TransferCTokenSign env h2 body signParams).1)
        ∧ (∀ (body : Option B) (signParams : Option SignatureParam),
          (TransferAssetSign env h1 body signParams).1 =
            (TransferAssetSign env h2 body signParams).1) := by
  intro B R env hdo hq h1 h2
  have issue : ∀ (body : Option B) (sign : Option SignatureBody),
      (IssueCToken env h1 body sign).1 = (IssueCToken env h2 body sign).1 := by
    intro body sign
    match body with
    | none => rfl
    | some b =>
      rcases hm : env.marshal b with e | pl
      · simp [IssueCToken, hm]
      · rw [IssueCToken_dispatch env h1 b sign pl hm,
          IssueCToken_dispatch env h2 b sign pl hm]
        exact congrArg (decodeResponse env.decodeBody env.unmarshalResult) (hdo _ _)
  have issueAsset : ∀ (body : Option B) (sign : Option SignatureBody),
      (IssueAsset env h1 body sign).1 = (IssueAsset env h2 body sign).1 := by
    intro body sign
    match body with
    | none => rfl
    | some b =>
      rcases hm : env.marshal b with e | pl
      · simp [IssueAsset, hm]
      · rw [IssueAsset_dispatch env h1 b sign pl hm,
          IssueAsset_dispatch env h2 b sign pl hm]
        exact congrArg (decodeResponse env.decodeBody env.unmarshalResult) (hdo _ _)
  have transfer : ∀ (body : Option B) (sign : Option SignatureBody),
      (TransferCToken env h1 body sign).1 = (TransferCToken env h2 body sign).1 := by
    intro body sign
    match body with
    | none => rfl
    | some b =>
      rcases hm : env.marshal b with e | pl
      · simp [TransferCToken, hm]
      · rw [TransferCToken_dispatch env h1 b sign pl hm,
          TransferCToken_dispatch env h2 b sign pl hm]
        exact congrArg (decodeResponse env.decodeBody env.unmarshalResult) (hdo _ _)
  have transferAsset : ∀ (body : Option B) (sign : Option SignatureBody),
      (TransferAsset env h1 body sign).1 = (TransferAsset env h2 body sign).1 := by
    intro body sign
    match body with
    | none => rfl
    | some b =>
      rcases hm : env.marshal b with e | pl
      · simp [TransferAsset, hm]
      · rw [TransferAsset_dispatch env h1 b sign pl hm,
          TransferAsset_dispatch env h2 b sign pl hm]
        exact congrArg (decodeResponse env.decodeBody env.unmarshalResult) (hdo _ _)
  have createPOE : ∀ (body : Option B) (signParams : Option SignatureParam),
      (CreatePOE env h1 body signParams).1 = (CreatePOE env h2 body signParams).1 := by
    intro body signParams
    match body with
    | none => rfl
    | some b =>
      have hres : resolveSignParams env h1 signParams = resolveSignParams env h2 signParams := by
        unfold resolveSignParams
        cases env.hasCustody
        · simp
        · simp [hq h1 h2 signParams]
      rcases hr2 : resolveSignParams env h2 signParams with ⟨res, n⟩
      have hr1 : resolveSignParams env h1 signParams = (res, n) := hres.trans hr2
      rcases res with e | sp2
      · simp [CreatePOE, hr1, hr2]
      · rcases hm : env.marshal b with e | pl
        · simp [CreatePOE, hr1, hr2, hm]
        · rcases hs : env.buildSignatureBody sp2 pl with e | sign
          · simp [CreatePOE, hr1, hr2, hm, hs]
          · rw [CreatePOE_dispatch env h1 b signParams sp2 n pl sign hr1 hm hs,
              CreatePOE_dispatch env h2 b signParams sp2 n pl sign hr2 hm hs]
            exact congrArg (decodeResponse env.decodeBody env.unmarshalResult) (hdo _ _)
  have updatePOE : ∀ (body : Option B) (signParams : Option SignatureParam),
      (UpdatePOE env h1 body signParams).1 = (UpdatePOE env h2 body signParams).1 := by
    intro body signParams
    match body with
    | none => rfl
    | some b =>
      have hres : resolveSignParams env h1 signParams = resolveSignParams env h2 signParams := by
        unfold resolveSignParams
        cases env.hasCustody
        · simp
        · simp [hq h1 h2 signParams]
      rcases hr2 : resolveSignParams env h2 signParams with ⟨res, n⟩
      have hr1 : resolveSignParams env h1 signParams = (res, n) := hres.trans hr2
      rcases res with e | sp2
      · simp [UpdatePOE, hr1, hr2]
      · rcases hm : env.marshal b with e | pl
        · simp [UpdatePOE, hr1, hr2, hm]
        · rcases hs : env.buildSignatureBody sp2 pl with e | sign
          · simp [UpdatePOE, hr1, hr2, hm, hs]
          · rw [UpdatePOE_dispatch env h1 b signParams sp2 n pl sign hr1 hm hs,
              UpdatePOE_dispatch env h2 b signParams sp2 n pl sign hr2 hm hs]
            exact congrArg (decodeResponse env.decodeBody env.unmarshalResult) (hdo _ _)
  refine ⟨issue, issueAsset, transfer, transferAsset, ?_, createPOE, updatePOE, ?_, ?_,
    ?_, ?_, ?_, ?_⟩
  · intro id txType
    by_cases hid : id = ""
    · simp [QueryTransactionLogs, hid]
    · rw [QueryTransactionLogs_dispatch env h1 id txType hid,
        QueryTransactionLogs_dispatch env h2 id txType hid]
      exact congrArg (decodeResponse env.decodeBody env.unmarshalResult) (hdo _ _)
  · intro id
    rw [QueryPOE_dispatch env h1 id, QueryPOE_dispatch env h2 id]
    exact congrArg (decodeResponse env.decodeBody env.unmarshalResult) (hdo _ _)
  · intro poeID poeFile readOnly
    by_cases hid : poeID = ""
    · simp [UploadPOEFile, hid]
    · by_cases hfile : poeFile = ""
      · simp [UploadPOEFile, hid, hfile]
      · rcases hfs : env.fs poeFile with _ | content
        · simp [UploadPOEFile, hid, hfile, hfs]
        · rw [UploadPOEFile_dispatch env h1 poeID poeFile readOnly content hid hfile hfs,
            UploadPOEFile_dispatch env h2 poeID poeFile readOnly content hid hfile hfs]
          exact congrArg (decodeResponse env.decodeBody env.unmarshalResult) (hdo _ _)
  · intro body signParams
    match body with
    | none => rfl
    | some b =>
      rcases hm : env.marshal b with e | pl
      · simp [IssueCTokenSign, hm]
      · rcases hs : env.buildSignatureBody signParams pl with e | sign
        · simp [IssueCTokenSign, hm, hs]
        · simp only [IssueCTokenSign, hm, hs]
          exact issue (some b) (some sign)
  · intro body signParams
    match body with
    | none => rfl
    | some b =>
      rcases hm : env.marshal b with e | pl
      · simp [IssueAssetSign, hm]
      · rcases hs : env.buildSignatureBody signParams pl with e | sign
        · simp [IssueAssetSign, hm, hs]
        · simp only [IssueAssetSign, hm, hs]
          exact issueAsset (some b) (some sign)
  · intro body signParams
    match body with
    | none => rfl
    | some b =>
      rcases hm : env.marshal b with e | pl
      · simp [TransferCTokenSign, hm]
      · rcases hs : env.buildSignatureBody signParams pl with e | sign
        · simp [TransferCTokenSign, hm, hs]
        · simp only [TransferCTokenSign, hm, hs]
          exact transfer (some b) (some sign)
  · intro body signParams
    match body with
    | none => rfl
    | some b =>
      rcases hm : env.marshal b with e | pl
      · simp [TransferAssetSign, hm]
      · rcases hs : env.buildSignatureBody signParams pl with e | sign
        · simp [TransferAssetSign, hm, hs]
        · simp only [TransferAssetSign, hm, hs]
          exact transferAsset (some b) (some sign)

/-- Witness for C8: at `witEnv` (whose transport and custody lookup ignore
their request and header arguments) a run with `Bc-Invoke-Mode: sync` and
a run without the header agree on every representative operation. -/
theorem claim_C8_witness :
    ((IssueCToken witEnv [("Bc-Invoke-Mode", "sync")] (some ()) none).1 =
      (IssueCToken witEnv [] (some ()) none).1)
    ∧ ((QueryTransactionLogs witEnv [("Bc-Invoke-Mode", "sync")] "tx1" "in").1 =
      (QueryTransactionLogs witEnv [] "tx1" "in").1)
    ∧ ((CreatePOE witEnv [("Bc-Invoke-Mode", "sync")] (some ()) none).1 =
      (CreatePOE witEnv [] (some ()) none).1)
    ∧ ((QueryPOE witEnv [("Bc-Invoke-Mode", "sync")] "poe1").1 =
      (QueryPOE witEnv [] "poe1").1)
    ∧ ((UploadPOEFile witEnv [("Bc-Invoke-Mode", "sync")] "p1" "f.txt" true).1 =
      (UploadPOEFile witEnv [] "p1" "f.txt" true).1)
    ∧ ((IssueCTokenSign witEnv [("Bc-Invoke-Mode", "sync")] (some ()) none).1 =
      (IssueCTokenSign witEnv [] (some ()) none).1) := by
  have h := claim_C8_header_noninterference Unit Nat witEnv (fun _ _ => rfl)
    (fun _ _ _ => rfl) [("Bc-Invoke-Mode", "sync")] []
  exact ⟨h.1 (some ()) none, h.2.2.2.2.1 "tx1" "in", h.2.2.2.2.2.1 (some ()) none,
    h.2.2.2.2.2.2.2.1 "poe1", h.2.2.2.2.2.2.2.2.1 "p1" "f.txt" true,
    h.2.2.2.2.2.2.2.2.2.1 (some ()) none⟩

end WalletSdk
